import Mathlib

/-!
Verification development for the Deadman-Mode duel engine.

The combat engine (`resolveTick` and its helpers) and the fight lifecycle
endpoints are translated here as a shallow embedding.  JavaScript numbers are
modelled as `Int` (every value the engine stores is integral).  The source's
fractional constants are exact decimals, so each `Math.floor(x * c)` is the
exact floor of a rational and is computed here as an integer floor division
(`Int.fdiv`); the accompanying theorems state and prove the corresponding
`Rat.floor` identities.  `Math.random()` returns a double in `[0,1)`, i.e. a
multiple of `2⁻⁵³`; it is modelled as an oracle stream of numerators
`k` (the draw being `k / 2⁵³`), consumed exactly where the source calls
`Math.random()`, an exhausted stream yielding `0`.
-/

-- ── Combat classes and action enumerations (src/types) ──

inductive CombatClass
  | melee | ranged | magic
deriving DecidableEq, Repr

inductive PrayerAction
  | protect_melee | protect_ranged | protect_magic
  | smite | piety | rigour | augury | none
  | deflect_melee | deflect_ranged | deflect_magic
deriving DecidableEq, Repr

inductive FoodAction
  | eat_shark | brew_sip | karambwan | combo_eat
deriving DecidableEq, Repr

inductive MovementAction
  | step_under | run_away | teleport_out
deriving DecidableEq, Repr

inductive AttackAction
  | slash | stab | crush | whip_flick | godsword_smash
  | rapid_shot | longrange_shot | crossbow_bolt | knife_throw | dark_bow_spec
  | fire_blast | ice_barrage | blood_barrage | entangle | teleblock | vengeance
deriving DecidableEq, Repr

inductive SpecialAction
  | ags_spec | dds_spec | gmaul_spec | vls_spec | dbow_spec
  | zcb_spec | sgs_spec | staff_spec | claws_spec
deriving DecidableEq, Repr

/-- The `special?: string` tag of an attack definition. -/
inductive AttackTag
  | armor_pierce | bolt_proc | double_hit | freeze | heal | bind
  | teleblock | vengeance
deriving DecidableEq, Repr

/-- The `effect?: string` tag of a special definition. -/
inductive SpecEffect
  | accuracy_boost | poison | instant | ignore_def | guaranteed_min
  | prayer_punish | heal_prayer | ignore_mage_def | cascade
deriving DecidableEq, Repr

structure AttackDef where
  name : String
  category : CombatClass
  minDmg : Int
  maxDmg : Int
  speed : Int
  accuracyBonus : Int
  special : Option AttackTag := Option.none
deriving DecidableEq, Repr

structure SpecDef where
  name : String
  weapon : String
  cost : Int
  minDmg : Int
  maxDmg : Int
  hits : Nat
  effect : Option SpecEffect := Option.none
deriving DecidableEq, Repr

-- ── Attack definitions table (part_004 lines 8-28) ──

def ATTACKS : AttackAction → AttackDef
  | .slash          => { name := "Slash", category := .melee, minDmg := 10, maxDmg := 25, speed := 4, accuracyBonus := 15 }
  | .stab           => { name := "Stab", category := .melee, minDmg := 12, maxDmg := 22, speed := 4, accuracyBonus := 20, special := some .armor_pierce }
  | .crush          => { name := "Crush", category := .melee, minDmg := 8, maxDmg := 30, speed := 5, accuracyBonus := 10 }
  | .whip_flick     => { name := "Whip Flick", category := .melee, minDmg := 14, maxDmg := 24, speed := 4, accuracyBonus := 18 }
  | .godsword_smash => { name := "Godsword Smash", category := .melee, minDmg := 20, maxDmg := 45, speed := 6, accuracyBonus := 5 }
  | .rapid_shot     => { name := "Rapid Shot", category := .ranged, minDmg := 8, maxDmg := 18, speed := 3, accuracyBonus := 12 }
  | .longrange_shot => { name := "Longrange Shot", category := .ranged, minDmg := 12, maxDmg := 24, speed := 5, accuracyBonus := 22 }
  | .crossbow_bolt  => { name := "Crossbow Bolt", category := .ranged, minDmg := 14, maxDmg := 28, speed := 5, accuracyBonus := 16, special := some .bolt_proc }
  | .knife_throw    => { name := "Knife Throw", category := .ranged, minDmg := 6, maxDmg := 14, speed := 2, accuracyBonus := 8 }
  | .dark_bow_spec  => { name := "Dark Bow", category := .ranged, minDmg := 25, maxDmg := 48, speed := 7, accuracyBonus := 10, special := some .double_hit }
  | .fire_blast     => { name := "Fire Blast", category := .magic, minDmg := 12, maxDmg := 26, speed := 5, accuracyBonus := 18 }
  | .ice_barrage    => { name := "Ice Barrage", category := .magic, minDmg := 10, maxDmg := 30, speed := 5, accuracyBonus := 14, special := some .freeze }
  | .blood_barrage  => { name := "Blood Barrage", category := .magic, minDmg := 8, maxDmg := 28, speed := 5, accuracyBonus := 14, special := some .heal }
  | .entangle       => { name := "Entangle", category := .magic, minDmg := 0, maxDmg := 0, speed := 5, accuracyBonus := 20, special := some .bind }
  | .teleblock      => { name := "Teleblock", category := .magic, minDmg := 0, maxDmg := 0, speed := 5, accuracyBonus := 16, special := some .teleblock }
  | .vengeance      => { name := "Vengeance", category := .magic, minDmg := 0, maxDmg := 0, speed := 5, accuracyBonus := 100, special := some .vengeance }

def SPECIALS : SpecialAction → SpecDef
  | .ags_spec   => { name := "AGS Spec", weapon := "Armadyl Godsword", cost := 50, minDmg := 30, maxDmg := 55, hits := 1, effect := some .accuracy_boost }
  | .dds_spec   => { name := "DDS Spec", weapon := "Dragon Dagger", cost := 25, minDmg := 8, maxDmg := 20, hits := 2, effect := some .poison }
  | .gmaul_spec => { name := "GMaul Spec", weapon := "Granite Maul", cost := 50, minDmg := 15, maxDmg := 35, hits := 1, effect := some .instant }
  | .vls_spec   => { name := "VLS Spec", weapon := "Vesta\x27s Longsword", cost := 25, minDmg := 20, maxDmg := 40, hits := 1, effect := some .ignore_def }
  | .dbow_spec  => { name := "Dark Bow Spec", weapon := "Dark Bow", cost := 55, minDmg := 16, maxDmg := 24, hits := 2, effect := some .guaranteed_min }
  | .zcb_spec   => { name := "ZCB Spec", weapon := "Zaryte Crossbow", cost := 50, minDmg := 18, maxDmg := 38, hits := 1, effect := some .prayer_punish }
  | .sgs_spec   => { name := "SGS Spec", weapon := "Saradomin Godsword", cost := 50, minDmg := 20, maxDmg := 40, hits := 1, effect := some .heal_prayer }
  | .staff_spec => { name := "Volatile Staff Spec", weapon := "Volatile Staff", cost := 50, minDmg := 25, maxDmg := 58, hits := 1, effect := some .ignore_mage_def }
  | .claws_spec => { name := "Dragon Claws Spec", weapon := "Dragon Claws", cost := 50, minDmg := 10, maxDmg := 30, hits := 4, effect := some .cascade }

-- ── Stat profiles (src/types STAT_PROFILES) ──

structure StatProfile where
  attack : Int
  strength : Int
  defence : Int
  ranged : Int
  magic : Int
  hp : Int
  prayer : Int
deriving DecidableEq, Repr

def STAT_PROFILES : CombatClass → StatProfile
  | .melee  => { attack := 99, strength := 99, defence := 99, ranged := 75, magic := 75, hp := 99, prayer := 99 }
  | .ranged => { attack := 75, strength := 75, defence := 75, ranged := 99, magic := 75, hp := 99, prayer := 99 }
  | .magic  => { attack := 75, strength := 75, defence := 75, ranged := 75, magic := 99, hp := 99, prayer := 99 }

-- ── Player state, submissions, fight (src/types) ──

structure FoodInventory where
  shark : Int
  karambwan : Int
  brew : Int
deriving DecidableEq, Repr

structure PlayerState where
  agent_id : String
  combat_class : CombatClass
  hp : Int
  prayer : Int
  spec_bar : Int
  food_remaining : FoodInventory
  active_prayer : PrayerAction
  frozen : Int
  teleblocked : Bool
  poisoned : Bool
  vengeance_active : Bool
  attack_delay : Int
  last_action : Option AttackAction
  last_special : Option SpecialAction
deriving DecidableEq, Repr

/-- An action submission.  The source's `"none"` / `undefined` values are both
modelled as `Option.none` (the engine treats them identically everywhere);
`prayer` keeps its own `PrayerAction.none` value as in the source type. -/
structure ActionSubmission where
  agent_id : String
  fight_id : String
  action : Option AttackAction
  prayer : Option PrayerAction
  food : Option FoodAction
  special : Option SpecialAction
  movement : Option MovementAction
deriving DecidableEq, Repr

structure TickResult where
  tick : Int
  p1_action : String
  p2_action : String
  p1_damage_dealt : Int
  p2_damage_dealt : Int
  p1_healed : Int
  p2_healed : Int
  narrative : String
deriving DecidableEq, Repr

inductive FightStatus
  | pending | in_progress | round_over | fight_over
deriving DecidableEq, Repr

inductive Arena
  | duel_arena | wilderness_crater | clan_wars | fight_caves
deriving DecidableEq, Repr

structure RoundsWon where
  p1 : Int
  p2 : Int
deriving DecidableEq, Repr

structure PendingActions where
  p1 : Option ActionSubmission
  p2 : Option ActionSubmission
deriving DecidableEq, Repr

structure Fight where
  fight_id : String
  arena : Arena
  round : Int
  tick : Int
  tick_window_ms : Int
  next_tick_at : Int
  status : FightStatus
  p1 : PlayerState
  p2 : PlayerState
  last_result : Option TickResult
  history : List TickResult
  rounds_won : RoundsWon
  wager_amount : Int
  pending_actions : PendingActions
deriving DecidableEq, Repr

-- ── Randomness oracle ──

/-- Denominator of a `Math.random()` draw: a double in `[0,1)` is a multiple
of `2⁻⁵³`. -/
def RAND_DEN : Int := 2 ^ 53

/-- A stream of `Math.random()` draws; a draw `k` denotes the value `k/2⁵³`. -/
abbrev Rng := List Int

/-- One `Math.random()` call: pop the next draw (an exhausted stream yields 0). -/
def randomNext (g : Rng) : Int × Rng :=
  match g with
  | [] => (0, [])
  | r :: rest => (r, rest)

/-- Every pending draw lies in `[0,1)`: `0 ≤ k < 2⁵³`. -/
def ValidRng (g : Rng) : Prop := ∀ k ∈ g, 0 ≤ k ∧ k < RAND_DEN

/-- `rand(min, max)` = `Math.floor(Math.random() * (max - min + 1)) + min`:
with the draw `r/2⁵³`, the floor is the exact division
`(r * (max - min + 1)).fdiv 2⁵³`. -/
def rand (lo hi : Int) (g : Rng) : Int × Rng :=
  let r := (randomNext g).1
  let g1 := (randomNext g).2
  ((r * (hi - lo + 1)).fdiv RAND_DEN + lo, g1)

-- ── Combat triangle and accuracy (part_004 lines 48-71) ──

/-- Combat-triangle accuracy modifier, as the exact fraction `num/den`
(the source's `1.0`, `1.10`, `0.90`). -/
def triangleModifier (attacker defender : CombatClass) : Int × Int :=
  if attacker = defender then (100, 100)
  else if (attacker = .melee ∧ defender = .ranged) ∨
          (attacker = .ranged ∧ defender = .magic) ∨
          (attacker = .magic ∧ defender = .melee) then (110, 100)
  else (90, 100)

/-- `accuracyRoll`: `attackRoll = floor(level * (acc + 64) * tri)` (`tri` an
exact fraction), `defRoll = floor(def * 64)` (already integral), a guaranteed
hit when `max attackRoll defRoll = 0`, otherwise one draw compared against
`hitChance = attackRoll / (attackRoll + defRoll)` — with the draw `r/2⁵³`
the comparison `r/2⁵³ < attackRoll/(attackRoll + defRoll)` is the
cross-multiplied integer test below (the roll sum is positive whenever this
branch is reached). -/
def accuracyRoll (attackerAccBonus attackerLevel defenderDefLevel : Int)
    (triangleMod : Int × Int) (g : Rng) : Bool × Rng :=
  let attackRoll := (attackerLevel * (attackerAccBonus + 64) * triangleMod.1).fdiv triangleMod.2
  let defRoll := defenderDefLevel * 64
  let maxRoll := max attackRoll defRoll
  if maxRoll = 0 then (true, g)
  else
    let r := (randomNext g).1
    let g1 := (randomNext g).2
    (decide (r * (attackRoll + defRoll) < attackRoll * RAND_DEN), g1)

-- ── Prayer resolution (part_004 lines 74-113) ──

def normalizePrayerAction (prayer : PrayerAction) : PrayerAction :=
  match prayer with
  | .deflect_melee => .protect_melee
  | .deflect_ranged => .protect_ranged
  | .deflect_magic => .protect_magic
  | p => p

/-- The `protectionMap` lookup of `getPrayerDamageReduction`. -/
def protectsClass (prayer : PrayerAction) : Option CombatClass :=
  match prayer with
  | .protect_melee => some .melee
  | .protect_ranged => some .ranged
  | .protect_magic => some .magic
  | _ => Option.none

/-- Damage reduction of a matching protect prayer, as the exact fraction
`num/den` (the source's `0.4`, else `0`). -/
def getPrayerDamageReduction (activePrayer : PrayerAction) (incomingCategory : CombatClass) : Int × Int :=
  if protectsClass (normalizePrayerAction activePrayer) = some incomingCategory then (2, 5)
  else (0, 1)

def getPrayerDrain (prayer : PrayerAction) : Int :=
  match normalizePrayerAction prayer with
  | .none => 0
  | .protect_melee | .protect_ranged | .protect_magic => 4
  | .smite => 6
  | .piety | .rigour | .augury => 5
  | _ => 4

/-- Offensive prayer multipliers, as exact fractions over 100
(the source's `1.2`, `1.23`, `1.25`, `1.04` and `1`). -/
structure OffensiveMods where
  accuracyNum : Int
  accuracyDen : Int
  damageNum : Int
  damageDen : Int
deriving DecidableEq, Repr

def getOffensivePrayerModifiers (prayer : PrayerAction) (category : CombatClass) : OffensiveMods :=
  match normalizePrayerAction prayer, category with
  | .piety, .melee => { accuracyNum := 120, accuracyDen := 100, damageNum := 123, damageDen := 100 }
  | .rigour, .ranged => { accuracyNum := 120, accuracyDen := 100, damageNum := 123, damageDen := 100 }
  | .augury, .magic => { accuracyNum := 125, accuracyDen := 100, damageNum := 104, damageDen := 100 }
  | _, _ => { accuracyNum := 100, accuracyDen := 100, damageNum := 100, damageDen := 100 }

-- ── Food resolution (part_004 lines 116-144) ──

structure FoodResult where
  healed : Int
  attackDelay : Int
  statDrain : Bool
deriving DecidableEq, Repr

/-- `resolveFood` returns its result record together with the updated player
(the source decrements `player.food_remaining` in place). -/
def resolveFood (player : PlayerState) (food : Option FoodAction) : FoodResult × PlayerState :=
  match food with
  | Option.none => ({ healed := 0, attackDelay := 0, statDrain := false }, player)
  | some .eat_shark =>
      if player.food_remaining.shark ≤ 0 then
        ({ healed := 0, attackDelay := 0, statDrain := false }, player)
      else
        ({ healed := 20, attackDelay := 1, statDrain := false },
         { player with food_remaining := { player.food_remaining with shark := player.food_remaining.shark - 1 } })
  | some .karambwan =>
      if player.food_remaining.karambwan ≤ 0 then
        ({ healed := 0, attackDelay := 0, statDrain := false }, player)
      else
        ({ healed := 18, attackDelay := 0, statDrain := false },
         { player with food_remaining := { player.food_remaining with karambwan := player.food_remaining.karambwan - 1 } })
  | some .brew_sip =>
      if player.food_remaining.brew ≤ 0 then
        ({ healed := 0, attackDelay := 0, statDrain := false }, player)
      else
        ({ healed := 15, attackDelay := 1, statDrain := true },
         { player with food_remaining := { player.food_remaining with brew := player.food_remaining.brew - 1 } })
  | some .combo_eat =>
      let inv0 := player.food_remaining
      let hasShark := 0 < inv0.shark
      let inv1 := if hasShark then { inv0 with shark := inv0.shark - 1 } else inv0
      let total1 : Int := if hasShark then 20 else 0
      let delay1 : Int := if hasShark then 1 else 0
      let hasKaram := 0 < inv1.karambwan
      let inv2 := if hasKaram then { inv1 with karambwan := inv1.karambwan - 1 } else inv1
      let total2 : Int := if hasKaram then total1 + 18 else total1
      let hasBrew := 0 < inv2.brew
      let inv3 := if hasBrew then { inv2 with brew := inv2.brew - 1 } else inv2
      let total3 : Int := if hasBrew then total2 + 15 else total2
      let delay3 : Int := if hasBrew then 2 else delay1
      ({ healed := total3, attackDelay := delay3, statDrain := 0 ≤ inv3.brew }, { player with food_remaining := inv3 })

-- ── Special attack resolution (part_004 lines 147-210) ──

structure SpecResult where
  totalDamage : Int
  healed : Int
  prayerRestored : Int
  effects : List String
deriving DecidableEq, Repr

/-- One hit of the `resolveSpecial` loop body, given the raw roll `h0` at loop
index `i`: the cascade shrink (`1 - i*0.2 = (5-i)/5`), the guaranteed
minimum, the protect-prayer reduction and the prayer-punish bonus, in source
order. -/
def specHit (d : SpecDef) (defenderPrayer : PrayerAction) (attackerClass : CombatClass)
    (i : Nat) (h0 : Int) : Int :=
  let h1 := if d.effect = some .cascade ∧ 0 < i then (h0 * (5 - (i : Int))).fdiv 5 else h0
  let h2 := if d.effect = some .guaranteed_min then max d.minDmg h1 else h1
  let reduction := getPrayerDamageReduction defenderPrayer attackerClass
  let h3 := (h2 * (reduction.2 - reduction.1)).fdiv reduction.2
  if d.effect = some .prayer_punish ∧ defenderPrayer ≠ .none then (h3 * 3).fdiv 2 else h3

/-- The per-hit loop of `resolveSpecial`: `k` hits remain, `i` is the current
loop index, `total` the accumulated damage. -/
def specLoop (d : SpecDef) (defenderPrayer : PrayerAction) (attackerClass : CombatClass) :
    Nat → Nat → Int → Rng → Int × Rng
  | 0, _, total, g => (total, g)
  | Nat.succ k, i, total, g =>
      let r0 := rand d.minDmg d.maxDmg g
      specLoop d defenderPrayer attackerClass k (i + 1)
        (total + specHit d defenderPrayer attackerClass i r0.1) r0.2

/-- `resolveSpecial` returns its result record together with the updated
attacker and defender (the source mutates `attacker.spec_bar` and
`defender.poisoned` in place).  The stat-profile parameters of the source are
unused there and omitted here. -/
def resolveSpecial (spec : Option SpecialAction) (attacker defender : PlayerState) (g : Rng) :
    SpecResult × PlayerState × PlayerState × Rng :=
  match spec with
  | Option.none => ({ totalDamage := 0, healed := 0, prayerRestored := 0, effects := [] }, attacker, defender, g)
  | some s =>
      let d := SPECIALS s
      if attacker.spec_bar < d.cost then
        ({ totalDamage := 0, healed := 0, prayerRestored := 0, effects := ["not_enough_spec"] }, attacker, defender, g)
      else
        let attacker1 := { attacker with spec_bar := attacker.spec_bar - d.cost }
        let loop := specLoop d defender.active_prayer attacker1.combat_class d.hits 0 0 g
        let totalDamage := loop.1
        let g1 := loop.2
        let healed := if d.effect = some .heal_prayer then totalDamage.fdiv 2 else 0
        let prayerRestored := if d.effect = some .heal_prayer then totalDamage.fdiv 4 else 0
        let poisonStep :
            PlayerState × List String × Rng :=
          if d.effect = some .poison ∧ 0 < totalDamage then
            let r := (randomNext g1).1
            let g2 := (randomNext g1).2
            if r * 4 < RAND_DEN then ({ defender with poisoned := true }, ["poisoned"], g2)
            else (defender, [], g2)
          else (defender, [], g1)
        let defender1 := poisonStep.1
        let effects1 := poisonStep.2.1
        let g3 := poisonStep.2.2
        let effects2 := if d.effect = some .ignore_def then effects1 ++ ["defence_ignored"] else effects1
        ({ totalDamage := totalDamage, healed := healed, prayerRestored := prayerRestored, effects := effects2 },
         attacker1, defender1, g3)

-- ── Normal attack resolution (part_004 lines 213-305) ──

structure AttackResult where
  damage : Int
  effects : List String
deriving DecidableEq, Repr

/-- The prayer-reduction step of `resolveAttack` (lines 247-252): returns the
reduced damage and whether `"prayer_blocked"` was pushed. -/
def applyProtectionReduction (damage : Int) (activePrayer : PrayerAction) (category : CombatClass) :
    Int × Bool :=
  let reduction := getPrayerDamageReduction activePrayer category
  if 0 < reduction.1 then ((damage * (reduction.2 - reduction.1)).fdiv reduction.2, true)
  else (damage, false)

/-- The post-hit pipeline of `resolveAttack` (lines 243-304), entered once the
accuracy roll has succeeded, with `d0` the raw damage roll already drawn. -/
def attackHitEffects (atk : AttackDef) (attacker defender : PlayerState)
    (d0 : Int) (prayerMods : OffensiveMods) (g : Rng) :
    AttackResult × PlayerState × PlayerState × Rng :=
  let d1 := (d0 * prayerMods.damageNum).fdiv prayerMods.damageDen
  let red := applyProtectionReduction d1 defender.active_prayer atk.category
  let d2 := red.1
  let effects0 : List String := if red.2 then ["prayer_blocked"] else []
  let boltStep : Int × List String × Rng :=
    if atk.special = some .bolt_proc then
      let r := (randomNext g).1
      let ga := (randomNext g).2
      if r * 4 < RAND_DEN then
        let pd := rand 5 15 ga
        (d2 + pd.1, effects0 ++ ["bolt_proc_" ++ toString pd.1], pd.2)
      else (d2, effects0, ga)
    else (d2, effects0, g)
  let d3 := boltStep.1
  let effects1 := boltStep.2.1
  let g1 := boltStep.2.2
  let defender1 := if atk.special = some .freeze ∧ 0 < d3 then { defender with frozen := 1 } else defender
  let effects2 := if atk.special = some .freeze ∧ 0 < d3 then effects1 ++ ["frozen"] else effects1
  let healAmt := d3.fdiv 4
  let attacker1 := if atk.special = some .heal then { attacker with hp := min 99 (attacker.hp + healAmt) } else attacker
  let effects3 := if atk.special = some .heal then effects2 ++ ["healed_" ++ toString healAmt] else effects2
  let defender2 := if atk.special = some .bind then { defender1 with frozen := 2 } else defender1
  let effects4 := if atk.special = some .bind then effects3 ++ ["bound"] else effects3
  let defender3 := if atk.special = some .teleblock then { defender2 with teleblocked := true } else defender2
  let effects5 := if atk.special = some .teleblock then effects4 ++ ["teleblocked"] else effects4
  if atk.special = some .vengeance then
    ({ damage := 0, effects := effects5 ++ ["vengeance_cast"] },
     { attacker1 with vengeance_active := true }, defender3, g1)
  else
    let veng := defender3.vengeance_active ∧ 0 < d3
    let vengDmg := (d3 * 3).fdiv 4
    let attacker2 := if veng then { attacker1 with hp := attacker1.hp - vengDmg } else attacker1
    let defender4 := if veng then { defender3 with vengeance_active := false } else defender3
    let effects6 := if veng then effects5 ++ ["vengeance_hit_" ++ toString vengDmg] else effects5
    let attacker3 := { attacker2 with attack_delay := atk.speed }
    ({ damage := d3, effects := effects6 }, attacker3, defender4, g1)

/-- `resolveAttack` returns its result record together with the updated
attacker and defender (the source mutates both in place). -/
def resolveAttack (action : Option AttackAction) (attacker defender : PlayerState)
    (attackerStats defenderStats : StatProfile) (g : Rng) :
    AttackResult × PlayerState × PlayerState × Rng :=
  match action with
  | Option.none => ({ damage := 0, effects := [] }, attacker, defender, g)
  | some a =>
      let atk := ATTACKS a
      if 0 < attacker.attack_delay then
        ({ damage := 0, effects := ["delayed"] }, attacker, defender, g)
      else
        let attackerLevel : Int :=
          match atk.category with
          | .melee => max attackerStats.attack attackerStats.strength
          | .ranged => attackerStats.ranged
          | .magic => attackerStats.magic
        let triMod := triangleModifier atk.category defender.combat_class
        let prayerMods := getOffensivePrayerModifiers attacker.active_prayer atk.category
        let effectiveAcc := (atk.accuracyBonus * prayerMods.accuracyNum).fdiv prayerMods.accuracyDen
        let roll := accuracyRoll effectiveAcc attackerLevel defenderStats.defence triMod g
        let hit := roll.1
        let g1 := roll.2
        if hit = false then ({ damage := 0, effects := ["splash"] }, attacker, defender, g1)
        else
          let dr := rand atk.minDmg atk.maxDmg g1
          attackHitEffects atk attacker defender dr.1 prayerMods dr.2

-- ── Tick resolution (part_004 lines 308-484) ──

/-- String key of an attack, as it appears in submissions and tick results. -/
def attackKey : AttackAction → String
  | .slash => "slash" | .stab => "stab" | .crush => "crush"
  | .whip_flick => "whip_flick" | .godsword_smash => "godsword_smash"
  | .rapid_shot => "rapid_shot" | .longrange_shot => "longrange_shot"
  | .crossbow_bolt => "crossbow_bolt" | .knife_throw => "knife_throw"
  | .dark_bow_spec => "dark_bow_spec" | .fire_blast => "fire_blast"
  | .ice_barrage => "ice_barrage" | .blood_barrage => "blood_barrage"
  | .entangle => "entangle" | .teleblock => "teleblock" | .vengeance => "vengeance"

def specKey : SpecialAction → String
  | .ags_spec => "ags_spec" | .dds_spec => "dds_spec" | .gmaul_spec => "gmaul_spec"
  | .vls_spec => "vls_spec" | .dbow_spec => "dbow_spec" | .zcb_spec => "zcb_spec"
  | .sgs_spec => "sgs_spec" | .staff_spec => "staff_spec" | .claws_spec => "claws_spec"

def attackLabel (a : Option AttackAction) : String :=
  match a with
  | some x => attackKey x
  | Option.none => "none"

structure PhaseOut where
  p1 : PlayerState
  p2 : PlayerState
deriving DecidableEq, Repr

/-- Step 1, prayer activation (lines 326-334). -/
def prayerPhase (p1 p2 : PlayerState) (pr1 pr2 : Option PrayerAction) : PhaseOut :=
  let q1 := { p1 with active_prayer := normalizePrayerAction (pr1.getD .none) }
  let q2 := { p2 with active_prayer := normalizePrayerAction (pr2.getD .none) }
  let q1 := { q1 with prayer := max 0 (q1.prayer - getPrayerDrain q1.active_prayer) }
  let q2 := { q2 with prayer := max 0 (q2.prayer - getPrayerDrain q2.active_prayer) }
  let q1 := if q1.prayer ≤ 0 then { q1 with active_prayer := .none } else q1
  let q2 := if q2.prayer ≤ 0 then { q2 with active_prayer := .none } else q2
  { p1 := q1, p2 := q2 }

structure FoodOut where
  p1 : PlayerState
  p2 : PlayerState
  p1Healed : Int
  p2Healed : Int
  frags : List String
deriving DecidableEq, Repr

/-- Step 2, food consumption (lines 336-346). -/
def foodPhase (p1 p2 : PlayerState) (f1 f2 : Option FoodAction) : FoodOut :=
  let r1 := resolveFood p1 f1
  let r2 := resolveFood p2 f2
  let q1 := r1.2
  let q2 := r2.2
  let q1 := { q1 with hp := min 99 (q1.hp + r1.1.healed) }
  let q2 := { q2 with hp := min 99 (q2.hp + r2.1.healed) }
  let q1 := { q1 with attack_delay := max q1.attack_delay r1.1.attackDelay }
  let q2 := { q2 with attack_delay := max q2.attack_delay r2.1.attackDelay }
  { p1 := q1, p2 := q2, p1Healed := r1.1.healed, p2Healed := r2.1.healed,
    frags :=
      (if 0 < r1.1.healed then [q1.agent_id ++ " eats for " ++ toString r1.1.healed ++ " HP"] else []) ++
      (if 0 < r2.1.healed then [q2.agent_id ++ " eats for " ++ toString r2.1.healed ++ " HP"] else []) }

structure MoveOut where
  p1 : PlayerState
  p2 : PlayerState
  frags : List String
deriving DecidableEq, Repr

/-- Step 3, movement (lines 348-358). -/
def movementPhase (p1 p2 : PlayerState) (m1 m2 : Option MovementAction) : MoveOut :=
  let q2 := if m1 = some .step_under then { p2 with attack_delay := max p2.attack_delay 1 } else p2
  let fragsA := if m1 = some .step_under then [p1.agent_id ++ " steps under"] else []
  let q1 := if m2 = some .step_under then { p1 with attack_delay := max p1.attack_delay 1 } else p1
  let fragsB := if m2 = some .step_under then [p2.agent_id ++ " steps under"] else []
  let fragsC := if 0 < q1.frozen ∧ (m1 = some .step_under ∨ m1 = some .run_away)
    then [q1.agent_id ++ " is frozen and can\x27t move!"] else []
  let fragsD := if 0 < q2.frozen ∧ (m2 = some .step_under ∨ m2 = some .run_away)
    then [q2.agent_id ++ " is frozen and can\x27t move!"] else []
  { p1 := q1, p2 := q2, frags := fragsA ++ fragsB ++ fragsC ++ fragsD }

structure SpecialOut where
  p1 : PlayerState
  p2 : PlayerState
  p1Dmg : Int
  p2Dmg : Int
  frags : List String
  g : Rng
deriving DecidableEq, Repr

def specWeaponLabel (s : Option SpecialAction) : String :=
  match s with
  | some x => (SPECIALS x).weapon
  | Option.none => "none"

/-- Step 4, special attacks, their application and the smite drain
(lines 360-389). -/
def specialPhase (p1 p2 : PlayerState) (p1a p2a : ActionSubmission) (g : Rng) : SpecialOut :=
  let s1 := resolveSpecial p1a.special p1 p2 g
  let spec1 := s1.1
  let q1 := s1.2.1
  let q2 := s1.2.2.1
  let g1 := s1.2.2.2
  let s2 := resolveSpecial p2a.special q2 q1 g1
  let spec2 := s2.1
  let q2 := s2.2.1
  let q1 := s2.2.2.1
  let g2 := s2.2.2.2
  let apply1 : PlayerState × PlayerState × Int × List String :=
    if 0 < spec1.totalDamage then
      ({ q1 with hp := min 99 (q1.hp + spec1.healed), prayer := min 99 (q1.prayer + spec1.prayerRestored) },
       { q2 with hp := q2.hp - spec1.totalDamage },
       spec1.totalDamage,
       [q1.agent_id ++ " hits a " ++ specWeaponLabel p1a.special ++ " for " ++ toString spec1.totalDamage ++ "!"])
    else (q1, q2, 0, [])
  let q1 := apply1.1
  let q2 := apply1.2.1
  let p1Dmg := apply1.2.2.1
  let frags1 := apply1.2.2.2
  let apply2 : PlayerState × PlayerState × Int × List String :=
    if 0 < spec2.totalDamage then
      ({ q2 with hp := min 99 (q2.hp + spec2.healed), prayer := min 99 (q2.prayer + spec2.prayerRestored) },
       { q1 with hp := q1.hp - spec2.totalDamage },
       spec2.totalDamage,
       [q2.agent_id ++ " hits a " ++ specWeaponLabel p2a.special ++ " for " ++ toString spec2.totalDamage ++ "!"])
    else (q2, q1, 0, [])
  let q2 := apply2.1
  let q1 := apply2.2.1
  let p2Dmg := apply2.2.2.1
  let frags2 := apply2.2.2.2
  let q2 := if p1a.prayer = some .smite ∧ 0 < p1Dmg then
      { q2 with prayer := max 0 (q2.prayer - p1Dmg.fdiv 4) } else q2
  let q1 := if p2a.prayer = some .smite ∧ 0 < p2Dmg then
      { q1 with prayer := max 0 (q1.prayer - p2Dmg.fdiv 4) } else q1
  { p1 := q1, p2 := q2, p1Dmg := p1Dmg, p2Dmg := p2Dmg, frags := frags1 ++ frags2, g := g2 }

structure AttackOut where
  attacker : PlayerState
  defender : PlayerState
  dmg : Int
  frags : List String
  g : Rng
deriving DecidableEq, Repr

/-- One side of step 5, a normal attack (lines 391-411): runs only when the
party used no special this tick and its attack delay is ≤ 0. -/
def attackTurn (attacker defender : PlayerState) (sub : ActionSubmission)
    (atkStats defStats : StatProfile) (g : Rng) : AttackOut :=
  if sub.special = Option.none ∧ attacker.attack_delay ≤ 0 then
    let r := resolveAttack sub.action attacker defender atkStats defStats g
    let res := r.1
    let a1 := r.2.1
    let d1 := r.2.2.1
    let g1 := r.2.2.2
    if 0 < res.damage then
      { attacker := a1, defender := { d1 with hp := d1.hp - res.damage }, dmg := res.damage,
        frags := [a1.agent_id ++ " hits " ++ attackLabel sub.action ++ " for " ++ toString res.damage], g := g1 }
    else if sub.action ≠ Option.none ∧ "splash" ∈ res.effects then
      { attacker := a1, defender := d1, dmg := 0,
        frags := [a1.agent_id ++ "\x27s " ++ attackLabel sub.action ++ " splashes!"], g := g1 }
    else
      { attacker := a1, defender := d1, dmg := 0, frags := [], g := g1 }
  else
    { attacker := attacker, defender := defender, dmg := 0, frags := [], g := g }

structure EndOut where
  p1 : PlayerState
  p2 : PlayerState
  frags : List String
deriving DecidableEq, Repr

/-- Step 6, end-of-tick bookkeeping (lines 413-432): spec regen, delay and
freeze countdown, poison damage, hp clamp. -/
def endOfTickPhase (p1 p2 : PlayerState) : EndOut :=
  let q1 := { p1 with spec_bar := min 100 (p1.spec_bar + 10) }
  let q2 := { p2 with spec_bar := min 100 (p2.spec_bar + 10) }
  let q1 := { q1 with attack_delay := max 0 (q1.attack_delay - 1) }
  let q2 := { q2 with attack_delay := max 0 (q2.attack_delay - 1) }
  let q1 := { q1 with frozen := max 0 (q1.frozen - 1) }
  let q2 := { q2 with frozen := max 0 (q2.frozen - 1) }
  let q1 := if q1.poisoned then { q1 with hp := q1.hp - 3 } else q1
  let fragsA := if q1.poisoned then [q1.agent_id ++ " takes 3 poison damage"] else []
  let q2 := if q2.poisoned then { q2 with hp := q2.hp - 3 } else q2
  let fragsB := if q2.poisoned then [q2.agent_id ++ " takes 3 poison damage"] else []
  let q1 := { q1 with hp := max 0 q1.hp }
  let q2 := { q2 with hp := max 0 q2.hp }
  { p1 := q1, p2 := q2, frags := fragsA ++ fragsB }

/-- Round-winner bookkeeping inside the judge (lines 462-475): decide which
(if either) player wins the ended round and bump their counter. -/
def judgeStep (f1 : Fight) (res : TickResult) : Fight × TickResult :=
  if f1.p1.hp ≤ 0 ∧ 0 < f1.p2.hp then
    ({ f1 with rounds_won := { f1.rounds_won with p2 := f1.rounds_won.p2 + 1 } },
     { res with narrative := res.narrative ++ " " ++ f1.p2.agent_id ++ " wins the round! Sit." })
  else if f1.p2.hp ≤ 0 ∧ 0 < f1.p1.hp then
    ({ f1 with rounds_won := { f1.rounds_won with p1 := f1.rounds_won.p1 + 1 } },
     { res with narrative := res.narrative ++ " " ++ f1.p1.agent_id ++ " wins the round! Sit." })
  else if 100 ≤ f1.tick then
    if f1.p2.hp < f1.p1.hp then
      ({ f1 with rounds_won := { f1.rounds_won with p1 := f1.rounds_won.p1 + 1 } },
       { res with narrative := res.narrative ++ " Timeout! " ++ f1.p1.agent_id ++ " wins on HP." })
    else if f1.p1.hp < f1.p2.hp then
      ({ f1 with rounds_won := { f1.rounds_won with p2 := f1.rounds_won.p2 + 1 } },
       { res with narrative := res.narrative ++ " Timeout! " ++ f1.p2.agent_id ++ " wins on HP." })
    else (f1, { res with narrative := res.narrative ++ " Timeout! Draw round." })
  else (f1, res)

/-- Match-win bookkeeping inside the judge (lines 477-481): first to two rounds
ends the fight. -/
def judgeMatch (f2 : Fight) (res2 : TickResult) : Fight × TickResult :=
  if 2 ≤ f2.rounds_won.p1 ∨ 2 ≤ f2.rounds_won.p2 then
    let winner := if 2 ≤ f2.rounds_won.p1 then f2.p1.agent_id else f2.p2.agent_id
    ({ f2 with status := FightStatus.fight_over },
     { res2 with narrative := res2.narrative ++ " " ++ winner ++ " wins the match! GG no re." })
  else (f2, res2)

/-- The round/match judge (lines 459-481), run on the fight after end-of-tick
bookkeeping; appends to the tick result's narrative. -/
def judgeRound (f : Fight) (res : TickResult) : Fight × TickResult :=
  if f.p1.hp ≤ 0 ∨ f.p2.hp ≤ 0 ∨ 100 ≤ f.tick then
    let f1 := { f with status := FightStatus.round_over }
    let step := judgeStep f1 res
    judgeMatch step.1 step.2
  else (f, res)

/-- The `p1_action` / `p2_action` label of a tick result: the special when one
was submitted, otherwise the attack (or `"none"`). -/
def tickActionLabel (sub : ActionSubmission) : String :=
  match sub.special with
  | some s => specKey s
  | Option.none => attackLabel sub.action

/-- Steps 1-6 of `resolveTick` plus the construction of the tick result,
before the round/match judge runs.  (The source appends the result to the
fight history before judging and then mutates the shared object's narrative;
value-semantically the final result is appended after judging, which
`resolveTickCore` below does.) -/
def combatPhase (f : Fight) (p1a p2a : ActionSubmission) (g : Rng) : Fight × TickResult × Rng :=
  let p1Stats := STAT_PROFILES f.p1.combat_class
  let p2Stats := STAT_PROFILES f.p2.combat_class
  let st1 := prayerPhase f.p1 f.p2 p1a.prayer p2a.prayer
  let st2 := foodPhase st1.p1 st1.p2 p1a.food p2a.food
  let st3 := movementPhase st2.p1 st2.p2 p1a.movement p2a.movement
  let st4 := specialPhase st3.p1 st3.p2 p1a p2a g
  let at1 := attackTurn st4.p1 st4.p2 p1a p1Stats p2Stats st4.g
  let at2 := attackTurn at1.defender at1.attacker p2a p2Stats p1Stats at1.g
  let p1Final0 := at2.defender
  let p2Final0 := at2.attacker
  let st6 := endOfTickPhase p1Final0 p2Final0
  let q1 := { st6.p1 with last_action := p1a.action, last_special := p1a.special }
  let q2 := { st6.p2 with last_action := p2a.action, last_special := p2a.special }
  let p1Dmg := st4.p1Dmg + at1.dmg
  let p2Dmg := st4.p2Dmg + at2.dmg
  let parts := st2.frags ++ st3.frags ++ st4.frags ++ at1.frags ++ at2.frags ++ st6.frags
  let res : TickResult :=
    { tick := f.tick + 1,
      p1_action := tickActionLabel p1a,
      p2_action := tickActionLabel p2a,
      p1_damage_dealt := p1Dmg,
      p2_damage_dealt := p2Dmg,
      p1_healed := st2.p1Healed,
      p2_healed := st2.p2Healed,
      narrative := if parts = [] then "Both fighters wait..." else String.intercalate ". " parts }
  ({ f with
      p1 := q1,
      p2 := q2,
      tick := f.tick + 1,
      pending_actions := { p1 := Option.none, p2 := Option.none } },
   res, at2.g)

def resolveTickCore (f : Fight) (p1a p2a : ActionSubmission) (g : Rng) : Fight × TickResult × Rng :=
  let c := combatPhase f p1a p2a g
  let j := judgeRound c.1 c.2.1
  ({ j.1 with last_result := some j.2, history := f.history ++ [j.2] }, j.2, c.2.2)

/-- `resolveTick` (lines 308-484).  The source throws when a pending action is
missing; that is modelled as `Option.none`. -/
def resolveTick (f : Fight) (g : Rng) : Option (Fight × TickResult × Rng) :=
  match f.pending_actions.p1, f.pending_actions.p2 with
  | some p1a, some p2a => some (resolveTickCore f p1a p2a g)
  | _, _ => Option.none

-- ── Fresh player state and fight creation ──

/-- `createPlayerState` (part_004 lines 487-504). -/
def createPlayerState (agent_id : String) (combat_class : CombatClass) : PlayerState :=
  { agent_id := agent_id,
    combat_class := combat_class,
    hp := 99,
    prayer := 99,
    spec_bar := 100,
    food_remaining := { shark := 16, karambwan := 4, brew := 6 },
    active_prayer := .none,
    frozen := 0,
    teleblocked := false,
    poisoned := false,
    vengeance_active := false,
    attack_delay := 0,
    last_action := Option.none,
    last_special := Option.none }

def DUEL_TICK_MS : Int := 600
def ACTION_TIMEOUT_MS : Int := 1600

-- ── Action intake / tick scheduler (src/routes.ts lines 1281-1324) ──

structure Agent where
  agent_id : String
  skills_md : String
  wallet_address : String
  combat_class : CombatClass
  wins : Int
  losses : Int
  elo : Int
deriving DecidableEq, Repr

/-- `createFight` (routes.ts lines 1042-1060); the generated id is a
parameter, `Date.now()` is the `now` argument. -/
def createFight (fid : String) (p1Agent p2Agent : Agent) (arena : Arena) (wager : Int) (now : Int) : Fight :=
  { fight_id := fid,
    arena := arena,
    round := 1,
    tick := 0,
    tick_window_ms := DUEL_TICK_MS,
    next_tick_at := now + DUEL_TICK_MS,
    status := .in_progress,
    p1 := createPlayerState p1Agent.agent_id p1Agent.combat_class,
    p2 := createPlayerState p2Agent.agent_id p2Agent.combat_class,
    last_result := Option.none,
    history := [],
    rounds_won := { p1 := 0, p2 := 0 },
    wager_amount := wager,
    pending_actions := { p1 := Option.none, p2 := Option.none } }

/-- `makeIdleSubmission` (routes.ts lines 1197-1208): every field `"none"`. -/
def makeIdleSubmission (f : Fight) (agentId : String) : ActionSubmission :=
  { agent_id := agentId,
    fight_id := f.fight_id,
    action := Option.none,
    prayer := some .none,
    food := Option.none,
    special := Option.none,
    movement := Option.none }

/-- Outcome of one invocation of the tick scheduler: nothing happened, a
pacing timer was armed to fire at the given time, or the tick resolved. -/
inductive TickOutcome
  | noop
  | scheduled (fireAt : Int)
  | resolved (f : Fight) (res : TickResult) (g : Rng)
deriving DecidableEq, Repr

/-- `resolveFightTickWhenDue` (routes.ts lines 1281-1305): clears both timers,
no-ops on a missing or non-`in_progress` fight or a missing pending action,
re-arms a timer for `next_tick_at` when called before the deadline, and
otherwise resolves the tick and advances `next_tick_at`. -/
def resolveFightTickWhenDue (fight : Option Fight) (now : Int) (g : Rng) : TickOutcome :=
  match fight with
  | Option.none => .noop
  | some f =>
      if f.status ≠ .in_progress then .noop
      else
        match f.pending_actions.p1, f.pending_actions.p2 with
        | some _, some _ =>
            let delay := max 0 (f.next_tick_at - now)
            if 0 < delay then .scheduled (now + delay)
            else
              match resolveTick f g with
              | some out => .resolved { out.1 with next_tick_at := now + out.1.tick_window_ms } out.2.1 out.2.2
              | Option.none => .noop
        | _, _ => .noop

/-- The callback of `scheduleMissingActionTimeout` (routes.ts lines
1307-1324), as fired after `ACTION_TIMEOUT_MS`: fills each still-empty
pending slot with the idle submission and runs the scheduler. -/
def actionTimeoutFired (fight : Option Fight) (now : Int) (g : Rng) : TickOutcome :=
  match fight with
  | Option.none => .noop
  | some f =>
      if f.status ≠ .in_progress then .noop
      else
        let f1 := if f.pending_actions.p1 = Option.none then
            { f with pending_actions := { f.pending_actions with p1 := some (makeIdleSubmission f f.p1.agent_id) } }
          else f
        let f2 := if f1.pending_actions.p2 = Option.none then
            { f1 with pending_actions := { f1.pending_actions with p2 := some (makeIdleSubmission f1 f1.p2.agent_id) } }
          else f1
        resolveFightTickWhenDue (some f2) now g

-- ── Elo update and the next-round endpoint (routes.ts lines 1672-1714) ──

/-- `Math.round`: round half towards positive infinity. -/
def jsRound (q : ℚ) : Int := (q + 1/2).floor

/-- `updateElo` (store, lines 321-331).  The source computes the expected
score with the transcendental `10 ** ((loser.elo - winner.elo) / 400)`;
that power function is taken as the parameter `tenPow`. -/
def updateElo (tenPow : ℚ → ℚ) (winner loser : Agent) : Agent × Agent :=
  let K : ℚ := 32
  let expectedW : ℚ := 1 / (1 + tenPow ((((loser.elo - winner.elo) : Int) : ℚ) / 400))
  let expectedL : ℚ := 1 / (1 + tenPow ((((winner.elo - loser.elo) : Int) : ℚ) / 400))
  let winner1 := { winner with elo := jsRound ((winner.elo : ℚ) + K * (1 - expectedW)), wins := winner.wins + 1 }
  let loser1 := { loser with elo := jsRound ((loser.elo : ℚ) + K * (0 - expectedL)), losses := loser.losses + 1 }
  (winner1, loser1)

/-- The in-memory `agents` map, keyed by agent id. -/
abbrev AgentStore := List (String × Agent)

def storeGet (s : AgentStore) (k : String) : Option Agent :=
  match s with
  | [] => Option.none
  | (k1, a) :: rest => if k1 = k then some a else storeGet rest k

def storeSet (s : AgentStore) (a : Agent) : AgentStore :=
  s.map (fun p => if p.1 = a.agent_id then (p.1, a) else p)

/-- The winner recomputed by the endpoint on a finished fight
(`fight.rounds_won.p1 >= 2 ? p1 : p2`). -/
def fightWinnerId (f : Fight) : String :=
  if 2 ≤ f.rounds_won.p1 then f.p1.agent_id else f.p2.agent_id

def fightLoserId (f : Fight) : String :=
  if fightWinnerId f = f.p1.agent_id then f.p2.agent_id else f.p1.agent_id

/-- Responses of `POST /arena/next-round`. -/
inductive NextRoundResponse
  | notFound
  | fightOver (winner : String) (roundsWonP1 roundsWonP2 : Int)
  | roundNotOver
  | roundStarted (round : Int)
deriving DecidableEq, Repr

/-- `POST /arena/next-round` (routes.ts lines 1672-1714): on a `fight_over`
fight it recomputes the winner, re-applies the Elo update to both stored
agents and returns a `fight_over` payload; only a fight that is neither
`fight_over` nor `round_over` is rejected with the `"Round not over yet"`
error; a `round_over` fight is reset for the next round. -/
def nextRoundPost (tenPow : ℚ → ℚ) (fight : Option Fight) (store : AgentStore) (now : Int) :
    NextRoundResponse × Option Fight × AgentStore :=
  match fight with
  | Option.none => (.notFound, Option.none, store)
  | some f =>
      if f.status = .fight_over then
        let winnerId := fightWinnerId f
        let loserId := fightLoserId f
        let store1 :=
          match storeGet store winnerId, storeGet store loserId with
          | some w, some l =>
              let wl := updateElo tenPow w l
              storeSet (storeSet store wl.1) wl.2
          | _, _ => store
        (.fightOver winnerId f.rounds_won.p1 f.rounds_won.p2, some f, store1)
      else if f.status ≠ .round_over then (.roundNotOver, some f, store)
      else
        let f1 := { f with
          round := f.round + 1,
          tick := 0,
          next_tick_at := now + f.tick_window_ms,
          status := .in_progress,
          p1 := createPlayerState f.p1.agent_id f.p1.combat_class,
          p2 := createPlayerState f.p2.agent_id f.p2.combat_class,
          history := [],
          last_result := Option.none,
          pending_actions := { p1 := Option.none, p2 := Option.none } }
        (.roundStarted f1.round, some f1, store)

-- ── Basic lemmas about the randomness oracle and floor division ──

theorem ratFloor_eq (q : ℚ) : q.floor = ⌊q⌋ := rfl

theorem validRng_nil : ValidRng [] := by
  intro k hk
  cases hk

theorem randomNext_valid {g : Rng} (h : ValidRng g) :
    (0 ≤ (randomNext g).1 ∧ (randomNext g).1 < RAND_DEN) ∧ ValidRng (randomNext g).2 := by
  cases g with
  | nil => exact ⟨⟨le_refl 0, by norm_num [randomNext, RAND_DEN]⟩, h⟩
  | cons r rest =>
      refine ⟨h r (List.mem_cons_self r rest), ?_⟩
      intro k hk
      exact h k (List.mem_cons_of_mem r hk)

theorem RAND_DEN_pos : 0 < RAND_DEN := by norm_num [RAND_DEN]

/-- For a positive divisor, the source's `Math.floor` division is the rational
floor. -/
theorem fdiv_eq_ratFloor (a : Int) {b : Int} (hb : 0 < b) :
    a.fdiv b = ((a : ℚ) / (b : ℚ)).floor := by
  rw [ratFloor_eq]
  obtain ⟨n, rfl⟩ : ∃ n : ℕ, b = (n : Int) := ⟨b.toNat, (Int.toNat_of_nonneg hb.le).symm⟩
  rw [Int.fdiv_eq_ediv a (by exact_mod_cast Nat.zero_le n)]
  rw [show ((n : Int) : ℚ) = (n : ℚ) by push_cast; ring]
  exact (Rat.floor_intCast_div_natCast a n).symm

theorem fdiv_nonneg {a b : Int} (ha : 0 ≤ a) (hb : 0 ≤ b) : 0 ≤ a.fdiv b := by
  rw [Int.fdiv_eq_ediv a hb]
  exact Int.ediv_nonneg ha hb

theorem rand_snd (lo hi : Int) (g : Rng) : (rand lo hi g).2 = (randomNext g).2 := rfl

theorem rand_bounds {lo hi : Int} (hle : lo ≤ hi) {g : Rng} (h : ValidRng g) :
    lo ≤ (rand lo hi g).1 ∧ (rand lo hi g).1 ≤ hi := by
  obtain ⟨⟨hr0, hr1⟩, -⟩ := randomNext_valid h
  set r := (randomNext g).1 with hrdef
  have hD := RAND_DEN_pos
  have hn : (0 : Int) < hi - lo + 1 := by omega
  have heq : (r * (hi - lo + 1)).fdiv RAND_DEN = (r * (hi - lo + 1)) / RAND_DEN :=
    Int.fdiv_eq_ediv _ hD.le
  constructor
  · have h0 : 0 ≤ (r * (hi - lo + 1)) / RAND_DEN :=
      Int.ediv_nonneg (mul_nonneg hr0 hn.le) hD.le
    show (r * (hi - lo + 1)).fdiv RAND_DEN + lo ≥ lo
    omega
  · have hlt : (r * (hi - lo + 1)) / RAND_DEN < hi - lo + 1 := by
      rw [Int.ediv_lt_iff_lt_mul hD]
      have := mul_lt_mul_of_pos_right hr1 hn
      linarith
    show (r * (hi - lo + 1)).fdiv RAND_DEN + lo ≤ hi
    omega

-- ── C6: the accuracy model ──

/-- The cyclic dominance relation of the spec: melee beats ranged, ranged
beats magic, magic beats melee. -/
def beats (a d : CombatClass) : Prop :=
  (a = .melee ∧ d = .ranged) ∨ (a = .ranged ∧ d = .magic) ∨ (a = .magic ∧ d = .melee)

instance (a d : CombatClass) : Decidable (beats a d) := by
  unfold beats
  infer_instance

theorem triangleModifier_pos (a d : CombatClass) :
    0 < (triangleModifier a d).1 ∧ 0 < (triangleModifier a d).2 := by
  cases a <;> cases d <;> decide

/-- C6: for every normal attack the hit decision uses
`attack_roll = floor(level * (acc + 64) * triangle)` and
`defense_roll = floor(def * 64)`, hitting with probability
`attack_roll / (attack_roll + defense_roll)` against one uniform draw
(`r/2⁵³`), with a guaranteed hit when both rolls are 0; the triangle modifier
is 1.10 when the attacker's class beats the defender's in the cyclic melee >
ranged > magic > melee relation, 0.90 when it loses, and 1 when the classes
are equal. -/
theorem accuracy_roll_model (a d : CombatClass) (acc lvl dl : Int) (g : Rng)
    (hacc : 0 ≤ acc) (hlvl : 0 ≤ lvl) (hdl : 0 ≤ dl) :
    (((triangleModifier a d).1 : ℚ) / ((triangleModifier a d).2 : ℚ) =
        if a = d then 1 else if beats a d then 11/10 else 9/10) ∧
    ((lvl * (acc + 64) * (triangleModifier a d).1).fdiv (triangleModifier a d).2 =
        ((lvl : ℚ) * ((acc : ℚ) + 64) *
          (((triangleModifier a d).1 : ℚ) / ((triangleModifier a d).2 : ℚ))).floor) ∧
    (dl * 64 = ((dl : ℚ) * 64).floor) ∧
    (((lvl * (acc + 64) * (triangleModifier a d).1).fdiv (triangleModifier a d).2 = 0 ∧ dl * 64 = 0 →
        accuracyRoll acc lvl dl (triangleModifier a d) g = (true, g)) ∧
     (¬((lvl * (acc + 64) * (triangleModifier a d).1).fdiv (triangleModifier a d).2 = 0 ∧ dl * 64 = 0) →
        accuracyRoll acc lvl dl (triangleModifier a d) g =
          (decide ((((randomNext g).1 : ℚ) / (RAND_DEN : ℚ) <
             (((lvl * (acc + 64) * (triangleModifier a d).1).fdiv (triangleModifier a d).2 : Int) : ℚ) /
               ((((lvl * (acc + 64) * (triangleModifier a d).1).fdiv (triangleModifier a d).2 : Int) : ℚ) +
                ((dl * 64 : Int) : ℚ)))),
           (randomNext g).2))) := by
  obtain ⟨htn, htd⟩ := triangleModifier_pos a d
  set A : Int := (lvl * (acc + 64) * (triangleModifier a d).1).fdiv (triangleModifier a d).2 with hA
  have hA0 : 0 ≤ A := by
    rw [hA]
    exact fdiv_nonneg (mul_nonneg (mul_nonneg hlvl (by omega)) htn.le) htd.le
  have hD0 : 0 ≤ dl * 64 := by positivity
  refine ⟨?_, ?_, ?_, ?_, ?_⟩
  · cases a <;> cases d <;> simp [triangleModifier, beats] <;> norm_num
  · rw [hA, fdiv_eq_ratFloor _ htd]
    congr 1
    push_cast
    ring
  · rw [ratFloor_eq]
    rw [show ((dl : ℚ) * 64) = (((dl * 64 : Int)) : ℚ) by push_cast; ring]
    exact (Int.floor_intCast _).symm
  · intro hz
    unfold accuracyRoll
    rw [← hA]
    have hmax : max A (dl * 64) = 0 := by omega
    simp [hmax]
  · intro hz
    unfold accuracyRoll
    rw [← hA]
    have hmax : ¬ max A (dl * 64) = 0 := by omega
    rw [if_neg hmax]
    have hsum : (0 : Int) < A + dl * 64 := by omega
    dsimp only
    congr 1
    rw [decide_eq_decide]
    rw [div_lt_div_iff (by exact_mod_cast RAND_DEN_pos) (by exact_mod_cast hsum)]
    constructor
    · intro hlt
      exact_mod_cast hlt
    · intro hlt
      exact_mod_cast hlt

/-- Closed witness for `accuracy_roll_model`: a slash-style roll (bonus 15,
level 99, defence 99, melee versus melee). -/
theorem accuracy_roll_model_witness :
    (((triangleModifier .melee .melee).1 : ℚ) / ((triangleModifier .melee .melee).2 : ℚ) =
        if CombatClass.melee = CombatClass.melee then 1
        else if beats .melee .melee then 11/10 else 9/10) ∧
    ((99 * ((15 : Int) + 64) * (triangleModifier .melee .melee).1).fdiv (triangleModifier .melee .melee).2 =
        (((99 : Int) : ℚ) * (((15 : Int) : ℚ) + 64) *
          (((triangleModifier .melee .melee).1 : ℚ) / ((triangleModifier .melee .melee).2 : ℚ))).floor) ∧
    ((99 : Int) * 64 = (((99 : Int) : ℚ) * 64).floor) ∧
    (((99 * ((15 : Int) + 64) * (triangleModifier .melee .melee).1).fdiv (triangleModifier .melee .melee).2 = 0 ∧
          (99 : Int) * 64 = 0 →
        accuracyRoll 15 99 99 (triangleModifier .melee .melee) [] = (true, [])) ∧
     (¬((99 * ((15 : Int) + 64) * (triangleModifier .melee .melee).1).fdiv (triangleModifier .melee .melee).2 = 0 ∧
          (99 : Int) * 64 = 0) →
        accuracyRoll 15 99 99 (triangleModifier .melee .melee) [] =
          (decide ((((randomNext ([] : Rng)).1 : ℚ) / (RAND_DEN : ℚ) <
             (((99 * ((15 : Int) + 64) * (triangleModifier .melee .melee).1).fdiv (triangleModifier .melee .melee).2 : Int) : ℚ) /
               ((((99 * ((15 : Int) + 64) * (triangleModifier .melee .melee).1).fdiv (triangleModifier .melee .melee).2 : Int) : ℚ) +
                (((99 : Int) * 64 : Int) : ℚ)))),
           (randomNext ([] : Rng)).2))) :=
  accuracy_roll_model .melee .melee 15 99 99 [] (by norm_num) (by norm_num) (by norm_num)

-- ── Shared concrete fixtures ──

def testSubmission (aid : String) : ActionSubmission :=
  { agent_id := aid, fight_id := "f1", action := Option.none, prayer := Option.none,
    food := Option.none, special := Option.none, movement := Option.none }

def mkFight (pa pb : PlayerState) (sa sb : Option ActionSubmission) : Fight :=
  { fight_id := "f1", arena := .duel_arena, round := 1, tick := 0,
    tick_window_ms := 600, next_tick_at := 600, status := .in_progress,
    p1 := pa, p2 := pb, last_result := Option.none, history := [],
    rounds_won := { p1 := 0, p2 := 0 }, wager_amount := 0,
    pending_actions := { p1 := sa, p2 := sb } }

-- ── C5: protect-prayer damage reduction ──

def slashAttacker : PlayerState := createPlayerState "attacker" .melee

def slashDefender : PlayerState :=
  { createPlayerState "defender" .melee with active_prayer := .protect_melee }

/-- C5: when the defender's active protect prayer matches the attack's combat
class, the post-prayer-multiplier damage becomes `floor(damage * 0.6)` (a 40%
reduction), and it is unchanged otherwise; concretely, a hitting slash rolling
its maximum 25 with no offensive prayer deals `floor(25 * 0.6) = 15` against a
`protect_melee` defender. -/
theorem protect_prayer_reduction (d : Int) (pr : PrayerAction) (cls : CombatClass) :
    (protectsClass (normalizePrayerAction pr) = some cls →
       applyProtectionReduction d pr cls = (((d : ℚ) * (6/10)).floor, true)) ∧
    (protectsClass (normalizePrayerAction pr) ≠ some cls →
       applyProtectionReduction d pr cls = (d, false)) ∧
    (resolveAttack (some .slash) slashAttacker slashDefender
        (STAT_PROFILES .melee) (STAT_PROFILES .melee) [0, 15 * 2 ^ 49]).1.damage = 15 ∧
    ((25 : ℚ) * (6/10)).floor = 15 := by
  refine ⟨?_, ?_, by decide, ?_⟩
  · intro h
    unfold applyProtectionReduction getPrayerDamageReduction
    rw [if_pos h]
    norm_num
    rw [fdiv_eq_ratFloor _ (by norm_num : (0:Int) < 5), ratFloor_eq, ratFloor_eq]
    congr 1
    push_cast
    ring
  · intro h
    unfold applyProtectionReduction getPrayerDamageReduction
    rw [if_neg h]
    norm_num
  · rw [ratFloor_eq]
    norm_num

/-- Closed witness for `protect_prayer_reduction` at damage 25,
`protect_melee` against a melee attack, and `smite` (no protection) against a
melee attack. -/
theorem protect_prayer_reduction_witness :
    applyProtectionReduction 25 .protect_melee .melee = ((((25 : Int) : ℚ) * (6/10)).floor, true) ∧
    applyProtectionReduction 25 .smite .melee = (25, false) :=
  ⟨(protect_prayer_reduction 25 .protect_melee .melee).1 (by decide),
   (protect_prayer_reduction 25 .smite .melee).2.1 (by decide)⟩

-- ── C7: special energy accounting ──

def agsCaster : PlayerState := createPlayerState "caster" .melee

def agsTarget : PlayerState := createPlayerState "target" .melee

def poorCaster : PlayerState := { createPlayerState "caster" .melee with spec_bar := 10 }

def agsFight : Fight :=
  mkFight agsCaster agsTarget
    (some { testSubmission "caster" with special := some .ags_spec })
    (some (testSubmission "target"))

/-- C7: a special with sufficient energy deducts exactly its cost from the
caster (before any damage is rolled, hence independently of the rolls), an
underfunded special leaves both parties untouched, and the end-of-tick step
regenerates exactly 10 energy capped at 100 — so a 50-cost special from a
full 100 pool leaves 50 immediately and 60 after the tick. -/
theorem special_energy_model (s : SpecialAction) (att dfd : PlayerState) (g : Rng) :
    ((SPECIALS s).cost ≤ att.spec_bar →
       (resolveSpecial (some s) att dfd g).2.1 =
         { att with spec_bar := att.spec_bar - (SPECIALS s).cost }) ∧
    (att.spec_bar < (SPECIALS s).cost →
       resolveSpecial (some s) att dfd g =
         ({ totalDamage := 0, healed := 0, prayerRestored := 0, effects := ["not_enough_spec"] },
          att, dfd, g)) ∧
    (∀ p1 p2 : PlayerState,
       (endOfTickPhase p1 p2).p1.spec_bar = min 100 (p1.spec_bar + 10) ∧
       (endOfTickPhase p1 p2).p2.spec_bar = min 100 (p2.spec_bar + 10)) ∧
    ((resolveSpecial (some .ags_spec) agsCaster agsTarget [0]).2.1.spec_bar = 50) ∧
    ((resolveTick agsFight [0]).map (fun o => o.1.p1.spec_bar) = some 60) := by
  refine ⟨?_, ?_, ?_, by decide, by decide⟩
  · intro h
    unfold resolveSpecial
    dsimp only
    rw [if_neg (not_lt.mpr h)]
  · intro h
    unfold resolveSpecial
    dsimp only
    rw [if_pos h]
  · intro p1 p2
    constructor <;> (unfold endOfTickPhase; dsimp only; split <;> rfl)

/-- Closed witness for `special_energy_model`: the AGS special (cost 50) from
a full bar and from a 10-energy bar. -/
theorem special_energy_model_witness :
    ((resolveSpecial (some .ags_spec) agsCaster agsTarget [0]).2.1 =
       { agsCaster with spec_bar := agsCaster.spec_bar - (SPECIALS .ags_spec).cost }) ∧
    (resolveSpecial (some .ags_spec) poorCaster agsTarget [] =
       ({ totalDamage := 0, healed := 0, prayerRestored := 0, effects := ["not_enough_spec"] },
        poorCaster, agsTarget, [])) ∧
    ((resolveTick agsFight [0]).map (fun o => o.1.p1.spec_bar) = some 60) :=
  ⟨(special_energy_model .ags_spec agsCaster agsTarget [0]).1 (by decide),
   (special_energy_model .ags_spec poorCaster agsTarget []).2.1 (by decide),
   (special_energy_model .ags_spec agsCaster agsTarget [0]).2.2.2.2⟩

-- ── C3: tick pacing and the action timeout ──

/-- C3: with both pending actions present on an `in_progress` fight, the
scheduler never resolves before `next_tick_at` — called early it re-arms a
timer that fires exactly at `next_tick_at` — and called at or after the
deadline it resolves immediately; when only one party has submitted, the
action-timeout callback fills the empty slot with the idle submission and
proceeds through the same scheduler (hence subject to the same pacing
floor). -/
theorem tick_pacing_model (f : Fight) (now : Int) (g : Rng) (s1 s2 : ActionSubmission)
    (hstat : f.status = .in_progress) :
    (f.pending_actions.p1 = some s1 → f.pending_actions.p2 = some s2 → now < f.next_tick_at →
       resolveFightTickWhenDue (some f) now g = .scheduled f.next_tick_at) ∧
    (f.pending_actions.p1 = some s1 → f.pending_actions.p2 = some s2 → f.next_tick_at ≤ now →
       ∃ out, resolveTick f g = some out ∧
         resolveFightTickWhenDue (some f) now g =
           .resolved { out.1 with next_tick_at := now + out.1.tick_window_ms } out.2.1 out.2.2) ∧
    (f.pending_actions.p1 = some s1 → f.pending_actions.p2 = Option.none →
       actionTimeoutFired (some f) now g =
         resolveFightTickWhenDue
           (some { f with pending_actions :=
              { p1 := some s1, p2 := some (makeIdleSubmission f f.p2.agent_id) } }) now g) ∧
    (f.pending_actions.p1 = Option.none → f.pending_actions.p2 = some s2 →
       actionTimeoutFired (some f) now g =
         resolveFightTickWhenDue
           (some { f with pending_actions :=
              { p1 := some (makeIdleSubmission f f.p1.agent_id), p2 := some s2 } }) now g) := by
  obtain ⟨fid, ar, rd, tk, tw, nta, st, P1, P2, lr, hist, rwon, wag, pend⟩ := f
  obtain ⟨pa, pb⟩ := pend
  dsimp only at hstat
  subst hstat
  refine ⟨?_, ?_, ?_, ?_⟩
  · intro hp1 hp2 hnow
    dsimp only at hp1 hp2 hnow ⊢
    subst hp1
    subst hp2
    simp only [resolveFightTickWhenDue, ne_eq, not_true_eq_false, if_false]
    have hmax : max 0 (nta - now) = nta - now := by omega
    rw [hmax, if_pos (by omega : (0 : Int) < nta - now)]
    congr 1
    omega
  · intro hp1 hp2 hnow
    dsimp only at hp1 hp2 hnow ⊢
    subst hp1
    subst hp2
    refine ⟨resolveTickCore _ s1 s2 g, rfl, ?_⟩
    simp only [resolveFightTickWhenDue, ne_eq, not_true_eq_false, if_false]
    have hmax : max 0 (nta - now) = 0 := by omega
    rw [hmax, if_neg (lt_irrefl 0)]
    rfl
  · intro hp1 hp2
    dsimp only at hp1 hp2
    subst hp1
    subst hp2
    simp [actionTimeoutFired]
  · intro hp1 hp2
    dsimp only at hp1 hp2
    subst hp1
    subst hp2
    simp [actionTimeoutFired]

def pacingFight : Fight :=
  mkFight (createPlayerState "A" .melee) (createPlayerState "B" .melee)
    (some (testSubmission "A")) (some (testSubmission "B"))

def halfFight : Fight :=
  mkFight (createPlayerState "A" .melee) (createPlayerState "B" .melee)
    (some (testSubmission "A")) Option.none

/-- Closed witness for `tick_pacing_model`: both actions in before the 600 ms
deadline schedules for 600; at the deadline it resolves; a lone submission
plus the timeout fills the idle slot and re-runs the scheduler. -/
theorem tick_pacing_model_witness :
    resolveFightTickWhenDue (some pacingFight) 0 [] = .scheduled 600 ∧
    (∃ out, resolveTick pacingFight [] = some out ∧
       resolveFightTickWhenDue (some pacingFight) 600 [] =
         .resolved { out.1 with next_tick_at := 600 + out.1.tick_window_ms } out.2.1 out.2.2) ∧
    actionTimeoutFired (some halfFight) 0 [] =
      resolveFightTickWhenDue
        (some { halfFight with pending_actions :=
           { p1 := some (testSubmission "A"),
             p2 := some (makeIdleSubmission halfFight halfFight.p2.agent_id) } }) 0 [] :=
  ⟨(tick_pacing_model pacingFight 0 [] (testSubmission "A") (testSubmission "B") rfl).1
      rfl rfl (by decide),
   (tick_pacing_model pacingFight 600 [] (testSubmission "A") (testSubmission "B") rfl).2.1
      rfl rfl (by decide),
   (tick_pacing_model halfFight 0 [] (testSubmission "A") (testSubmission "B") rfl).2.2.1
      rfl rfl⟩

-- ── C4: the next-round endpoint on in_progress and fight_over fights ──

def eloAgent (aid : String) : Agent :=
  { agent_id := aid, skills_md := "", wallet_address := "", combat_class := .melee,
    wins := 0, losses := 0, elo := 1000 }

def cexStore : AgentStore := [("A", eloAgent "A"), ("B", eloAgent "B")]

def fightOverFight : Fight :=
  { mkFight (createPlayerState "A" .melee) (createPlayerState "B" .melee) Option.none Option.none with
      status := .fight_over, rounds_won := { p1 := 2, p2 := 0 } }

def nrInProgressFight : Fight :=
  mkFight (createPlayerState "A" .melee) (createPlayerState "B" .melee) Option.none Option.none

/-- A concrete stand-in for the source's transcendental `x ↦ 10 ** x`; it
agrees with it at `x = 0` (equal ratings), the only argument arising on the
first call of the counterexample run, and none of the facts stated below
depend on its values. -/
def tenPowUnit : ℚ → ℚ := fun _ => 1

/-- C4 counterexample: calling next-round on a `fight_over` fight is NOT
rejected — it returns a success `fight_over` payload — and it re-applies the
rating update on every call: the stored winner's win counter is 1 after one
call and 2 after calling again. -/
theorem next_round_fight_over_not_rejected :
    (nextRoundPost tenPowUnit (some fightOverFight) cexStore 0).1 = .fightOver "A" 2 0 ∧
    (nextRoundPost tenPowUnit (some fightOverFight) cexStore 0).1 ≠ .roundNotOver ∧
    ((storeGet (nextRoundPost tenPowUnit (some fightOverFight) cexStore 0).2.2 "A").map
        (fun a => a.wins) = some 1) ∧
    ((storeGet (nextRoundPost tenPowUnit (some fightOverFight)
        (nextRoundPost tenPowUnit (some fightOverFight) cexStore 0).2.2 0).2.2 "A").map
        (fun a => a.wins) = some 2) := by
  refine ⟨by decide, by decide, by decide, by decide⟩

/-- C4 amended: next-round on an `in_progress` fight is rejected with the
`"Round not over yet"` error and changes nothing; but on a `fight_over` fight
the call is not rejected: it returns the `fight_over` winner payload, leaves
the fight unchanged, and (re-)applies the Elo update — incrementing the
stored winner's wins and loser's losses — on every call. -/
theorem next_round_endpoint_model (tp : ℚ → ℚ) (f : Fight) (store : AgentStore) (now : Int) :
    (f.status = .in_progress →
       nextRoundPost tp (some f) store now = (.roundNotOver, some f, store)) ∧
    (f.status = .fight_over →
       (nextRoundPost tp (some f) store now).1 =
         .fightOver (fightWinnerId f) f.rounds_won.p1 f.rounds_won.p2 ∧
       (nextRoundPost tp (some f) store now).2.1 = some f ∧
       (∀ w l, storeGet store (fightWinnerId f) = some w →
          storeGet store (fightLoserId f) = some l →
          (nextRoundPost tp (some f) store now).2.2 =
            storeSet (storeSet store (updateElo tp w l).1) (updateElo tp w l).2)) ∧
    (∀ w l, (updateElo tp w l).1.wins = w.wins + 1 ∧ (updateElo tp w l).2.losses = l.losses + 1) := by
  refine ⟨?_, ?_, ?_⟩
  · intro h
    simp [nextRoundPost, h]
  · intro h
    refine ⟨by simp [nextRoundPost, h], by simp [nextRoundPost, h], ?_⟩
    intro w l hw hl
    simp [nextRoundPost, h, hw, hl]
  · intro w l
    exact ⟨rfl, rfl⟩

/-- Closed witness for `next_round_endpoint_model`. -/
theorem next_round_endpoint_model_witness :
    nextRoundPost tenPowUnit (some nrInProgressFight) cexStore 0 =
      (.roundNotOver, some nrInProgressFight, cexStore) ∧
    (nextRoundPost tenPowUnit (some fightOverFight) cexStore 0).2.1 = some fightOverFight ∧
    (updateElo tenPowUnit (eloAgent "A") (eloAgent "B")).1.wins = (eloAgent "A").wins + 1 :=
  ⟨(next_round_endpoint_model tenPowUnit nrInProgressFight cexStore 0).1 rfl,
   ((next_round_endpoint_model tenPowUnit fightOverFight cexStore 0).2.1 rfl).2.1,
   ((next_round_endpoint_model tenPowUnit fightOverFight cexStore 0).2.2
      (eloAgent "A") (eloAgent "B")).1⟩

-- ── C8: where hp clamping happens around food heals ──

theorem resolveFood_fields (p : PlayerState) (f : Option FoodAction) :
    (resolveFood p f).2.hp = p.hp ∧ (resolveFood p f).2.prayer = p.prayer ∧
    (resolveFood p f).2.spec_bar = p.spec_bar ∧ (resolveFood p f).2.attack_delay = p.attack_delay ∧
    0 ≤ (resolveFood p f).1.healed := by
  rcases f with _ | f
  · simp [resolveFood]
  · cases f <;> (unfold resolveFood; dsimp only) <;> (repeat' split) <;> norm_num

def fedPlayer : PlayerState := { createPlayerState "A" .melee with hp := 90 }

def foodClampFight : Fight :=
  mkFight fedPlayer (createPlayerState "B" .melee)
    (some { testSubmission "A" with food := some .eat_shark })
    (some { testSubmission "B" with action := some .slash })

/-- C8 counterexample: the food step clamps immediately.  A 90-hp player
eating a stocked shark (+20) leaves the food step at hp 99, not the unclamped
110; taking a 15-damage slash later in the same tick therefore ends the tick
at 84, not at the 95 = (110 - 15) the unclamped-until-end-of-tick account
predicts. -/
theorem food_heal_clamped_immediately :
    (foodPhase fedPlayer (createPlayerState "B" .melee) (some .eat_shark) Option.none).p1.hp = 99 ∧
    fedPlayer.hp + 20 = 110 ∧ (99 : Int) ≠ 110 ∧
    (resolveTick foodClampFight [0, 5 * 2 ^ 49]).map (fun o => (o.1.p1.hp, o.2.1.p2_damage_dealt)) =
      some (84, 15) ∧
    (110 - 15 : Int) = 95 ∧ (84 : Int) ≠ 95 := by
  exact ⟨by decide, by decide, by decide, by decide, by decide, by decide⟩

/-- C8 amended: a stocked chosen food's heal is applied with an immediate
upper clamp — the food step sets `hp := min 99 (hp + heal)` — so damage later
in the tick subtracts from the already-clamped total; the end-of-tick step
clamps hp only from below at 0 (after poison damage); unstocked food is a
no-op. -/
theorem food_heal_clamp_model (p1 p2 : PlayerState) (f1 f2 : Option FoodAction) :
    ((foodPhase p1 p2 f1 f2).p1.hp = min 99 (p1.hp + (resolveFood p1 f1).1.healed)) ∧
    ((foodPhase p1 p2 f1 f2).p2.hp = min 99 (p2.hp + (resolveFood p2 f2).1.healed)) ∧
    ((endOfTickPhase p1 p2).p1.hp = max 0 (if p1.poisoned then p1.hp - 3 else p1.hp)) ∧
    ((endOfTickPhase p1 p2).p2.hp = max 0 (if p2.poisoned then p2.hp - 3 else p2.hp)) ∧
    (p1.food_remaining.shark ≤ 0 →
       resolveFood p1 (some .eat_shark) =
         ({ healed := 0, attackDelay := 0, statDrain := false }, p1)) := by
  refine ⟨?_, ?_, ?_, ?_, ?_⟩
  · unfold foodPhase
    dsimp only
    rw [(resolveFood_fields p1 f1).1]
  · unfold foodPhase
    dsimp only
    rw [(resolveFood_fields p2 f2).1]
  · unfold endOfTickPhase
    dsimp only
    split <;> rfl
  · unfold endOfTickPhase
    dsimp only
    split <;> rfl
  · intro h
    unfold resolveFood
    dsimp only
    rw [if_pos h]

def noSharkPlayer : PlayerState :=
  { createPlayerState "A" .melee with food_remaining := { shark := 0, karambwan := 4, brew := 6 } }

/-- Closed witness for `food_heal_clamp_model`: the 90-hp shark eater, and an
unstocked shark as a no-op. -/
theorem food_heal_clamp_model_witness :
    ((foodPhase fedPlayer noSharkPlayer (some .eat_shark) Option.none).p1.hp =
       min 99 (fedPlayer.hp + (resolveFood fedPlayer (some .eat_shark)).1.healed)) ∧
    resolveFood noSharkPlayer (some .eat_shark) =
      ({ healed := 0, attackDelay := 0, statDrain := false }, noSharkPlayer) :=
  ⟨(food_heal_clamp_model fedPlayer noSharkPlayer (some .eat_shark) Option.none).1,
   (food_heal_clamp_model noSharkPlayer fedPlayer (some .eat_shark) Option.none).2.2.2.2
     (by decide)⟩

-- ── C9: what triggers vengeance retaliation ──

theorem attackHitEffects_veng_cast (atk : AttackDef) (att dfd : PlayerState) (d0 : Int)
    (mods : OffensiveMods) (g : Rng) (hspec : atk.special = some AttackTag.vengeance) :
    (attackHitEffects atk att dfd d0 mods g).1.damage = 0 := by
  unfold attackHitEffects
  dsimp only
  rw [if_pos hspec]

theorem attackHitEffects_veng (atk : AttackDef) (att dfd : PlayerState) (d0 : Int)
    (mods : OffensiveMods) (g : Rng)
    (hv : dfd.vengeance_active = true)
    (hspec : atk.special ≠ some AttackTag.vengeance) :
    0 < (attackHitEffects atk att dfd d0 mods g).1.damage →
    ((attackHitEffects atk att dfd d0 mods g).2.2.1.vengeance_active = false ∧
     (attackHitEffects atk att dfd d0 mods g).2.1.hp =
       (if atk.special = some AttackTag.heal
        then min 99 (att.hp + ((attackHitEffects atk att dfd d0 mods g).1.damage).fdiv 4)
        else att.hp)
       - (((attackHitEffects atk att dfd d0 mods g).1.damage) * 3).fdiv 4) := by
  obtain ⟨nm, cat, mn, mx, sp, ab, tag⟩ := atk
  dsimp only at hspec ⊢
  unfold attackHitEffects
  dsimp only
  rcases tag with _ | tag
  · simp only [reduceCtorEq, if_false, ite_false, false_and, hv, true_and]
    intro hdmg
    simp only [if_pos hdmg]
    exact ⟨trivial, trivial⟩
  · cases tag <;>
      first
        | exact absurd rfl hspec
        | (simp only [reduceCtorEq, Option.some.injEq, if_false, ite_false, false_and, if_true,
             ite_true, eq_self_iff_true, true_and, and_true, hv]
           (repeat' split) <;> intro hdmg <;>
             first
               | exact ⟨trivial, trivial⟩
               | exact ⟨rfl, rfl⟩
               | simp_all)

def vengArmedPlayer : PlayerState := { createPlayerState "A" .melee with vengeance_active := true }

def vengSpecFight : Fight :=
  mkFight vengArmedPlayer (createPlayerState "B" .melee)
    (some (testSubmission "A"))
    (some { testSubmission "B" with special := some .gmaul_spec })

/-- C9 counterexample: a vengeance-armed party taking 15 damage from a
special (Granite Maul) this tick reflects nothing — the dealer ends the tick
at hp 99, not at 99 - floor(15 * 0.75) = 88 — and the vengeance flag stays
armed. -/
theorem vengeance_ignores_special_damage :
    (resolveTick vengSpecFight [0]).map
        (fun o => (o.1.p1.hp, o.1.p2.hp, o.1.p1.vengeance_active, o.2.1.p2_damage_dealt)) =
      some (84, 99, true, 15) ∧
    ((99 : Int) - ((15 : Int) * 3).fdiv 4 = 88) ∧ ((99 : Int) ≠ 88) :=
  ⟨by decide, by decide, by decide⟩

/-- C9 amended: vengeance retaliation triggers only inside normal-attack
resolution: when a normal attack deals damage > 0 to a vengeance-armed
defender, the attacker loses exactly `floor(0.75 * that attack's damage)` hp
(applied after any blood-type self-heal) and the flag is cleared; special
damage never triggers a reflection — `resolveSpecial` leaves the attacker's
hp and the defender's vengeance flag untouched. -/
theorem vengeance_reflection_model (a : AttackAction) (att dfd : PlayerState)
    (st1 st2 : StatProfile) (g : Rng) (s : SpecialAction) (att2 dfd2 : PlayerState) (g2 : Rng)
    (hv : dfd.vengeance_active = true) :
    (0 < (resolveAttack (some a) att dfd st1 st2 g).1.damage →
       ((resolveAttack (some a) att dfd st1 st2 g).2.2.1.vengeance_active = false ∧
        (resolveAttack (some a) att dfd st1 st2 g).2.1.hp =
          (if (ATTACKS a).special = some AttackTag.heal
           then min 99 (att.hp + ((resolveAttack (some a) att dfd st1 st2 g).1.damage).fdiv 4)
           else att.hp)
          - (((resolveAttack (some a) att dfd st1 st2 g).1.damage) * 3).fdiv 4)) ∧
    (∀ d : Int, (d * 3).fdiv 4 = ((d : ℚ) * (3/4)).floor) ∧
    ((resolveSpecial (some s) att2 dfd2 g2).2.1.hp = att2.hp) ∧
    ((resolveSpecial (some s) att2 dfd2 g2).2.2.1.vengeance_active = dfd2.vengeance_active) := by
  refine ⟨?_, ?_, ?_, ?_⟩
  · unfold resolveAttack
    dsimp only
    split
    · intro hdmg
      exact absurd hdmg (by norm_num)
    · split
      · intro hdmg
        exact absurd hdmg (by norm_num)
      · by_cases hsp : (ATTACKS a).special = some AttackTag.vengeance
        · intro hdmg
          rw [attackHitEffects_veng_cast _ _ _ _ _ _ hsp] at hdmg
          exact absurd hdmg (by norm_num)
        · exact attackHitEffects_veng _ _ _ _ _ _ hv hsp
  · intro d
    rw [fdiv_eq_ratFloor _ (by norm_num : (0:Int) < 4), ratFloor_eq, ratFloor_eq]
    congr 1
    push_cast
    ring
  · unfold resolveSpecial
    dsimp only
    split
    · rfl
    · (repeat' split) <;> rfl
  · unfold resolveSpecial
    dsimp only
    split
    · rfl
    · (repeat' split) <;> rfl

/-- Closed witness for `vengeance_reflection_model`: a slash (rng forcing a
hit for 15) against a vengeance-armed defender reflects 11 and clears the
flag; the Granite Maul special touches neither. -/
theorem vengeance_reflection_model_witness :
    (0 < (resolveAttack (some .slash) agsTarget vengArmedPlayer
            (STAT_PROFILES .melee) (STAT_PROFILES .melee) [0, 5 * 2 ^ 49]).1.damage →
       ((resolveAttack (some .slash) agsTarget vengArmedPlayer
            (STAT_PROFILES .melee) (STAT_PROFILES .melee) [0, 5 * 2 ^ 49]).2.2.1.vengeance_active = false ∧
        (resolveAttack (some .slash) agsTarget vengArmedPlayer
            (STAT_PROFILES .melee) (STAT_PROFILES .melee) [0, 5 * 2 ^ 49]).2.1.hp =
          (if (ATTACKS .slash).special = some AttackTag.heal
           then min 99 (agsTarget.hp + ((resolveAttack (some .slash) agsTarget vengArmedPlayer
               (STAT_PROFILES .melee) (STAT_PROFILES .melee) [0, 5 * 2 ^ 49]).1.damage).fdiv 4)
           else agsTarget.hp)
          - (((resolveAttack (some .slash) agsTarget vengArmedPlayer
               (STAT_PROFILES .melee) (STAT_PROFILES .melee) [0, 5 * 2 ^ 49]).1.damage) * 3).fdiv 4)) ∧
    ((resolveSpecial (some .gmaul_spec) agsCaster vengArmedPlayer []).2.1.hp = agsCaster.hp) ∧
    ((resolveSpecial (some .gmaul_spec) agsCaster vengArmedPlayer []).2.2.1.vengeance_active =
       vengArmedPlayer.vengeance_active) := by
  have h := vengeance_reflection_model .slash agsTarget vengArmedPlayer
    (STAT_PROFILES .melee) (STAT_PROFILES .melee) [0, 5 * 2 ^ 49]
    .gmaul_spec agsCaster vengArmedPlayer [] (by decide)
  exact ⟨h.1, h.2.2.1, h.2.2.2⟩

-- ── C1: range invariants ──

def hpOk (p : PlayerState) : Prop := 0 ≤ p.hp ∧ p.hp ≤ 99

def prayerOk (p : PlayerState) : Prop := 0 ≤ p.prayer ∧ p.prayer ≤ 99

def specOk (p : PlayerState) : Prop := 0 ≤ p.spec_bar ∧ p.spec_bar ≤ 100

/-- The spec's invariant ranges: hp ∈ [0,99], prayer ∈ [0,99],
special-energy ∈ [0,100]. -/
def inRanges (p : PlayerState) : Prop := hpOk p ∧ prayerOk p ∧ specOk p

instance (p : PlayerState) : Decidable (hpOk p) := by unfold hpOk; infer_instance

instance (p : PlayerState) : Decidable (prayerOk p) := by unfold prayerOk; infer_instance

instance (p : PlayerState) : Decidable (specOk p) := by unfold specOk; infer_instance

instance (p : PlayerState) : Decidable (inRanges p) := by unfold inRanges; infer_instance

theorem attacks_minmax (a : AttackAction) :
    0 ≤ (ATTACKS a).minDmg ∧ (ATTACKS a).minDmg ≤ (ATTACKS a).maxDmg := by
  cases a <;> decide

theorem specials_table_ok (s : SpecialAction) :
    0 ≤ (SPECIALS s).cost ∧ 0 ≤ (SPECIALS s).minDmg ∧
    (SPECIALS s).minDmg ≤ (SPECIALS s).maxDmg ∧ (SPECIALS s).hits ≤ 5 := by
  cases s <;> decide

theorem drain_nonneg (pr : PrayerAction) : 0 ≤ getPrayerDrain pr := by
  cases pr <;> decide

theorem offmods_ok (pr : PrayerAction) (cat : CombatClass) :
    0 ≤ (getOffensivePrayerModifiers pr cat).damageNum ∧
    0 ≤ (getOffensivePrayerModifiers pr cat).damageDen := by
  cases pr <;> cases cat <;> decide

theorem reduction_ok (pr : PrayerAction) (cat : CombatClass) :
    0 ≤ (getPrayerDamageReduction pr cat).1 ∧
    (getPrayerDamageReduction pr cat).1 ≤ (getPrayerDamageReduction pr cat).2 := by
  unfold getPrayerDamageReduction
  split <;> norm_num

theorem applyProtectionReduction_nonneg (d : Int) (pr : PrayerAction) (cat : CombatClass)
    (hd : 0 ≤ d) : 0 ≤ (applyProtectionReduction d pr cat).1 := by
  obtain ⟨hr1, hr2⟩ := reduction_ok pr cat
  unfold applyProtectionReduction
  dsimp only
  split
  · exact fdiv_nonneg (by nlinarith) (by omega)
  · exact hd

theorem prayerPhase_inv (p1 p2 : PlayerState) (pr1 pr2 : Option PrayerAction) :
    (prayerPhase p1 p2 pr1 pr2).p1.hp = p1.hp ∧
    (prayerPhase p1 p2 pr1 pr2).p1.spec_bar = p1.spec_bar ∧
    (prayerPhase p1 p2 pr1 pr2).p1.poisoned = p1.poisoned ∧
    (p1.prayer ≤ 99 → 0 ≤ (prayerPhase p1 p2 pr1 pr2).p1.prayer ∧
       (prayerPhase p1 p2 pr1 pr2).p1.prayer ≤ 99) ∧
    (prayerPhase p1 p2 pr1 pr2).p2.hp = p2.hp ∧
    (prayerPhase p1 p2 pr1 pr2).p2.spec_bar = p2.spec_bar ∧
    (prayerPhase p1 p2 pr1 pr2).p2.poisoned = p2.poisoned ∧
    (p2.prayer ≤ 99 → 0 ≤ (prayerPhase p1 p2 pr1 pr2).p2.prayer ∧
       (prayerPhase p1 p2 pr1 pr2).p2.prayer ≤ 99) := by
  have hd1 := drain_nonneg (normalizePrayerAction (pr1.getD .none))
  have hd2 := drain_nonneg (normalizePrayerAction (pr2.getD .none))
  unfold prayerPhase
  dsimp only
  split <;> split <;>
    exact ⟨rfl, rfl, rfl,
           fun h => ⟨le_max_left 0 _, max_le (by norm_num) (by omega)⟩,
           rfl, rfl, rfl,
           fun h => ⟨le_max_left 0 _, max_le (by norm_num) (by omega)⟩⟩

theorem foodPhase_inv (p1 p2 : PlayerState) (f1 f2 : Option FoodAction) :
    (foodPhase p1 p2 f1 f2).p1.hp ≤ 99 ∧
    (foodPhase p1 p2 f1 f2).p1.prayer = p1.prayer ∧
    (foodPhase p1 p2 f1 f2).p1.spec_bar = p1.spec_bar ∧
    (foodPhase p1 p2 f1 f2).p2.hp ≤ 99 ∧
    (foodPhase p1 p2 f1 f2).p2.prayer = p2.prayer ∧
    (foodPhase p1 p2 f1 f2).p2.spec_bar = p2.spec_bar := by
  obtain ⟨-, hpr1, hsp1, -, -⟩ := resolveFood_fields p1 f1
  obtain ⟨-, hpr2, hsp2, -, -⟩ := resolveFood_fields p2 f2
  unfold foodPhase
  dsimp only
  exact ⟨by omega, hpr1, hsp1, by omega, hpr2, hsp2⟩

theorem movementPhase_inv (p1 p2 : PlayerState) (m1 m2 : Option MovementAction) :
    (movementPhase p1 p2 m1 m2).p1.hp = p1.hp ∧
    (movementPhase p1 p2 m1 m2).p1.prayer = p1.prayer ∧
    (movementPhase p1 p2 m1 m2).p1.spec_bar = p1.spec_bar ∧
    (movementPhase p1 p2 m1 m2).p2.hp = p2.hp ∧
    (movementPhase p1 p2 m1 m2).p2.prayer = p2.prayer ∧
    (movementPhase p1 p2 m1 m2).p2.spec_bar = p2.spec_bar := by
  unfold movementPhase
  dsimp only
  split <;> split <;> exact ⟨rfl, rfl, rfl, rfl, rfl, rfl⟩

theorem specHit_nonneg (d : SpecDef) (pr : PrayerAction) (cls : CombatClass) (i : Nat) (h0 : Int)
    (hmin : 0 ≤ d.minDmg) (h00 : 0 ≤ h0) (hi : i ≤ 4) :
    0 ≤ specHit d pr cls i h0 := by
  obtain ⟨hr1, hr2⟩ := reduction_ok pr cls
  have hi4 : (i : Int) ≤ 4 := by exact_mod_cast hi
  unfold specHit
  dsimp only
  have h1 : 0 ≤ (if d.effect = some SpecEffect.cascade ∧ 0 < i
      then (h0 * (5 - (i : Int))).fdiv 5 else h0) := by
    split
    · exact fdiv_nonneg (mul_nonneg h00 (by omega)) (by norm_num)
    · exact h00
  set a1 := (if d.effect = some SpecEffect.cascade ∧ 0 < i
      then (h0 * (5 - (i : Int))).fdiv 5 else h0) with ha1
  have h2 : 0 ≤ (if d.effect = some SpecEffect.guaranteed_min then max d.minDmg a1 else a1) := by
    split
    · omega
    · exact h1
  set a2 := (if d.effect = some SpecEffect.guaranteed_min then max d.minDmg a1 else a1) with ha2
  have h3 : 0 ≤ (a2 * ((getPrayerDamageReduction pr cls).2 -
      (getPrayerDamageReduction pr cls).1)).fdiv (getPrayerDamageReduction pr cls).2 :=
    fdiv_nonneg (mul_nonneg h2 (by omega)) (by omega)
  set a3 := (a2 * ((getPrayerDamageReduction pr cls).2 -
      (getPrayerDamageReduction pr cls).1)).fdiv (getPrayerDamageReduction pr cls).2 with ha3
  split
  · exact fdiv_nonneg (mul_nonneg h3 (by norm_num)) (by norm_num)
  · exact h3

theorem specLoop_inv (d : SpecDef) (pr : PrayerAction) (cls : CombatClass)
    (hmin : 0 ≤ d.minDmg) (hmm : d.minDmg ≤ d.maxDmg) :
    ∀ (k i : Nat) (total : Int) (g : Rng), ValidRng g → i + k ≤ 5 → 0 ≤ total →
      0 ≤ (specLoop d pr cls k i total g).1 ∧ ValidRng (specLoop d pr cls k i total g).2 := by
  intro k
  induction k with
  | zero =>
      intro i total g hg _ ht
      exact ⟨ht, hg⟩
  | succ k ih =>
      intro i total g hg hik ht
      have hb := rand_bounds hmm hg
      have hg1 : ValidRng (rand d.minDmg d.maxDmg g).2 := by
        rw [rand_snd]
        exact (randomNext_valid hg).2
      have hhit := specHit_nonneg d pr cls i (rand d.minDmg d.maxDmg g).1 hmin (by omega) (by omega)
      simp only [specLoop]
      exact ih (i + 1) _ _ hg1 (by omega) (by omega)

theorem resolveSpecial_inv (s : Option SpecialAction) (att dfd : PlayerState) (g : Rng)
    (hg : ValidRng g) (hsb : 0 ≤ att.spec_bar) :
    0 ≤ (resolveSpecial s att dfd g).1.totalDamage ∧
    0 ≤ (resolveSpecial s att dfd g).1.healed ∧
    0 ≤ (resolveSpecial s att dfd g).1.prayerRestored ∧
    (resolveSpecial s att dfd g).2.1.hp = att.hp ∧
    (resolveSpecial s att dfd g).2.1.prayer = att.prayer ∧
    0 ≤ (resolveSpecial s att dfd g).2.1.spec_bar ∧
    (resolveSpecial s att dfd g).2.1.spec_bar ≤ att.spec_bar ∧
    (resolveSpecial s att dfd g).2.2.1.hp = dfd.hp ∧
    (resolveSpecial s att dfd g).2.2.1.prayer = dfd.prayer ∧
    (resolveSpecial s att dfd g).2.2.1.spec_bar = dfd.spec_bar ∧
    ValidRng (resolveSpecial s att dfd g).2.2.2 := by
  rcases s with _ | ss
  · exact ⟨le_refl 0, le_refl 0, le_refl 0, rfl, rfl, hsb, le_refl _, rfl, rfl, rfl, hg⟩
  · obtain ⟨hc, hmn, hmx, hh⟩ := specials_table_ok ss
    unfold resolveSpecial
    dsimp only
    split
    · exact ⟨le_refl 0, le_refl 0, le_refl 0, rfl, rfl, hsb, le_refl _, rfl, rfl, rfl, hg⟩
    · rename_i hcost
      dsimp only
      obtain ⟨hT, hG⟩ := specLoop_inv (SPECIALS ss) dfd.active_prayer att.combat_class hmn hmx
        (SPECIALS ss).hits 0 0 g hg (by omega) (le_refl 0)
      refine ⟨hT, ?_, ?_, rfl, rfl,
        (by omega : (0:Int) ≤ att.spec_bar - (SPECIALS ss).cost),
        (by omega : att.spec_bar - (SPECIALS ss).cost ≤ att.spec_bar), ?_, ?_, ?_, ?_⟩
      · split
        · exact fdiv_nonneg hT (by norm_num)
        · exact le_refl 0
      · split
        · exact fdiv_nonneg hT (by norm_num)
        · exact le_refl 0
      · split
        · split <;> rfl
        · rfl
      · split
        · split <;> rfl
        · rfl
      · split
        · split <;> rfl
        · rfl
      · split
        · split <;> exact (randomNext_valid hG).2
        · exact hG

theorem attackHitEffects_inv (atk : AttackDef) (att dfd : PlayerState) (d0 : Int)
    (mods : OffensiveMods) (g : Rng)
    (hg : ValidRng g) (hd0 : 0 ≤ d0) (hnum : 0 ≤ mods.damageNum) (hden : 0 ≤ mods.damageDen)
    (hhp : att.hp ≤ 99) :
    0 ≤ (attackHitEffects atk att dfd d0 mods g).1.damage ∧
    (attackHitEffects atk att dfd d0 mods g).2.1.hp ≤ 99 ∧
    (attackHitEffects atk att dfd d0 mods g).2.1.prayer = att.prayer ∧
    (attackHitEffects atk att dfd d0 mods g).2.1.spec_bar = att.spec_bar ∧
    (attackHitEffects atk att dfd d0 mods g).2.2.1.hp = dfd.hp ∧
    (attackHitEffects atk att dfd d0 mods g).2.2.1.prayer = dfd.prayer ∧
    (attackHitEffects atk att dfd d0 mods g).2.2.1.spec_bar = dfd.spec_bar ∧
    ValidRng (attackHitEffects atk att dfd d0 mods g).2.2.2 := by
  obtain ⟨nm, cat, mn, mx, sp, ab, tag⟩ := atk
  have hga : ValidRng (randomNext g).2 := (randomNext_valid hg).2
  have hgb : ValidRng (rand 5 15 (randomNext g).2).2 := by
    rw [rand_snd]
    exact (randomNext_valid hga).2
  have hA : 0 ≤ (applyProtectionReduction ((d0 * mods.damageNum).fdiv mods.damageDen)
      dfd.active_prayer cat).1 :=
    applyProtectionReduction_nonneg _ _ _ (fdiv_nonneg (mul_nonneg hd0 hnum) hden)
  have hP := rand_bounds (by norm_num : (5:Int) ≤ 15) hga
  have hV1 : 0 ≤ ((applyProtectionReduction ((d0 * mods.damageNum).fdiv mods.damageDen)
      dfd.active_prayer cat).1 * 3).fdiv 4 :=
    fdiv_nonneg (by omega) (by norm_num)
  have hV2 : 0 ≤ (((applyProtectionReduction ((d0 * mods.damageNum).fdiv mods.damageDen)
      dfd.active_prayer cat).1 + (rand 5 15 (randomNext g).2).1) * 3).fdiv 4 :=
    fdiv_nonneg (by omega) (by norm_num)
  unfold attackHitEffects
  dsimp only
  rcases tag with _ | tag <;> [skip; cases tag] <;>
    (refine ⟨?_, ?_, ?_, ?_, ?_, ?_, ?_, ?_⟩ <;>
       first
         | (simp only [reduceCtorEq, Option.some.injEq, if_false, ite_false, false_and, if_true,
              ite_true, eq_self_iff_true, true_and, and_true]
            (repeat' split) <;>
              first
                | rfl
                | omega
                | exact hg
                | exact hga
                | exact hgb
                | (dsimp only; omega))
         | (simp only [reduceCtorEq, Option.some.injEq, if_false, ite_false, false_and, if_true,
              ite_true, eq_self_iff_true, true_and, and_true])
         | ((repeat' split) <;>
              first
                | rfl
                | omega
                | exact hg
                | exact hga
                | exact hgb
                | (dsimp only; omega)))

theorem accuracyRoll_valid (acc lvl dl : Int) (tri : Int × Int) (g : Rng) (hg : ValidRng g) :
    ValidRng (accuracyRoll acc lvl dl tri g).2 := by
  unfold accuracyRoll
  dsimp only
  split
  · exact hg
  · exact (randomNext_valid hg).2

theorem resolveAttack_inv (action : Option AttackAction) (att dfd : PlayerState)
    (st1 st2 : StatProfile) (g : Rng) (hg : ValidRng g) (hhp : att.hp ≤ 99) :
    0 ≤ (resolveAttack action att dfd st1 st2 g).1.damage ∧
    (resolveAttack action att dfd st1 st2 g).2.1.hp ≤ 99 ∧
    (resolveAttack action att dfd st1 st2 g).2.1.prayer = att.prayer ∧
    (resolveAttack action att dfd st1 st2 g).2.1.spec_bar = att.spec_bar ∧
    (resolveAttack action att dfd st1 st2 g).2.2.1.hp = dfd.hp ∧
    (resolveAttack action att dfd st1 st2 g).2.2.1.prayer = dfd.prayer ∧
    (resolveAttack action att dfd st1 st2 g).2.2.1.spec_bar = dfd.spec_bar ∧
    ValidRng (resolveAttack action att dfd st1 st2 g).2.2.2 := by
  rcases action with _ | a
  · exact ⟨le_refl 0, hhp, rfl, rfl, rfl, rfl, rfl, hg⟩
  · obtain ⟨hmn, hmx⟩ := attacks_minmax a
    obtain ⟨hdn, hdd⟩ := offmods_ok att.active_prayer (ATTACKS a).category
    unfold resolveAttack
    dsimp only
    split
    · exact ⟨le_refl 0, hhp, rfl, rfl, rfl, rfl, rfl, hg⟩
    · split
      · exact ⟨le_refl 0, hhp, rfl, rfl, rfl, rfl, rfl, accuracyRoll_valid _ _ _ _ _ hg⟩
      · refine attackHitEffects_inv _ _ _ _ _ _ ?_ ?_ hdn hdd hhp
        · rw [rand_snd]
          exact (randomNext_valid (accuracyRoll_valid _ _ _ _ _ hg)).2
        · exact le_trans hmn (rand_bounds hmx (accuracyRoll_valid _ _ _ _ _ hg)).1

theorem attackTurn_inv (att dfd : PlayerState) (sub : ActionSubmission)
    (st1 st2 : StatProfile) (g : Rng) (hg : ValidRng g)
    (hhp1 : att.hp ≤ 99) (hhp2 : dfd.hp ≤ 99) :
    (attackTurn att dfd sub st1 st2 g).attacker.hp ≤ 99 ∧
    (attackTurn att dfd sub st1 st2 g).attacker.prayer = att.prayer ∧
    (attackTurn att dfd sub st1 st2 g).attacker.spec_bar = att.spec_bar ∧
    (attackTurn att dfd sub st1 st2 g).defender.hp ≤ 99 ∧
    (attackTurn att dfd sub st1 st2 g).defender.prayer = dfd.prayer ∧
    (attackTurn att dfd sub st1 st2 g).defender.spec_bar = dfd.spec_bar ∧
    ValidRng (attackTurn att dfd sub st1 st2 g).g := by
  obtain ⟨hd, ha1, ha2, ha3, hd1, hd2, hd3, hgo⟩ := resolveAttack_inv sub.action att dfd st1 st2 g hg hhp1
  unfold attackTurn
  dsimp only
  split
  · split
    · exact ⟨ha1, ha2, ha3, by dsimp only; omega, hd2, hd3, hgo⟩
    · split
      · exact ⟨ha1, ha2, ha3, by dsimp only; omega, hd2, hd3, hgo⟩
      · exact ⟨ha1, ha2, ha3, by dsimp only; omega, hd2, hd3, hgo⟩
  · exact ⟨hhp1, rfl, rfl, hhp2, rfl, rfl, hg⟩

theorem specialPhase_inv (p1 p2 : PlayerState) (p1a p2a : ActionSubmission) (g : Rng)
    (hg : ValidRng g)
    (h1hp : p1.hp ≤ 99) (h2hp : p2.hp ≤ 99)
    (h1pr : prayerOk p1) (h2pr : prayerOk p2)
    (h1sp : specOk p1) (h2sp : specOk p2) :
    (specialPhase p1 p2 p1a p2a g).p1.hp ≤ 99 ∧
    prayerOk (specialPhase p1 p2 p1a p2a g).p1 ∧
    specOk (specialPhase p1 p2 p1a p2a g).p1 ∧
    (specialPhase p1 p2 p1a p2a g).p2.hp ≤ 99 ∧
    prayerOk (specialPhase p1 p2 p1a p2a g).p2 ∧
    specOk (specialPhase p1 p2 p1a p2a g).p2 ∧
    ValidRng (specialPhase p1 p2 p1a p2a g).g := by
  obtain ⟨h1pr0, h1pr99⟩ := h1pr
  obtain ⟨h2pr0, h2pr99⟩ := h2pr
  obtain ⟨h1sp0, h1sp100⟩ := h1sp
  obtain ⟨h2sp0, h2sp100⟩ := h2sp
  obtain ⟨hT1, hH1, hR1, hq1hp, hq1pr, hq1sb0, hq1sble, hq2hp, hq2pr, hq2sb, hgo1⟩ :=
    resolveSpecial_inv p1a.special p1 p2 g hg h1sp0
  obtain ⟨hT2, hH2, hR2, hq2hpB, hq2prB, hq2sb0B, hq2sbleB, hq1hpB, hq1prB, hq1sbB, hgo2⟩ :=
    resolveSpecial_inv p2a.special
      (resolveSpecial p1a.special p1 p2 g).2.2.1
      (resolveSpecial p1a.special p1 p2 g).2.1
      (resolveSpecial p1a.special p1 p2 g).2.2.2
      hgo1 (by omega)
  have hf1 : 0 ≤ ((resolveSpecial p1a.special p1 p2 g).1.totalDamage).fdiv 4 :=
    fdiv_nonneg hT1 (by norm_num)
  have hf2 : 0 ≤ ((resolveSpecial p2a.special
      (resolveSpecial p1a.special p1 p2 g).2.2.1
      (resolveSpecial p1a.special p1 p2 g).2.1
      (resolveSpecial p1a.special p1 p2 g).2.2.2).1.totalDamage).fdiv 4 :=
    fdiv_nonneg hT2 (by norm_num)
  unfold specialPhase prayerOk specOk
  dsimp only
  refine ⟨?_, ?_, ?_, ?_, ?_, ?_, ?_⟩ <;>
    ((repeat' split) <;>
      first
        | exact hgo2
        | (dsimp only at *; omega))

theorem endOfTickPhase_inv (p1 p2 : PlayerState)
    (h1 : p1.hp ≤ 99) (h2 : p2.hp ≤ 99) (h1s : specOk p1) (h2s : specOk p2) :
    hpOk (endOfTickPhase p1 p2).p1 ∧ specOk (endOfTickPhase p1 p2).p1 ∧
    (endOfTickPhase p1 p2).p1.prayer = p1.prayer ∧
    hpOk (endOfTickPhase p1 p2).p2 ∧ specOk (endOfTickPhase p1 p2).p2 ∧
    (endOfTickPhase p1 p2).p2.prayer = p2.prayer := by
  obtain ⟨h1s0, h1s100⟩ := h1s
  obtain ⟨h2s0, h2s100⟩ := h2s
  unfold endOfTickPhase hpOk specOk
  dsimp only
  (repeat' split) <;>
    first
      | rfl
      | (dsimp only at *; omega)
      | (refine ⟨?_, ?_⟩ <;> (dsimp only at *; omega))

theorem judgeStep_fields (f1 : Fight) (r : TickResult) :
    (judgeStep f1 r).1.p1 = f1.p1 ∧ (judgeStep f1 r).1.p2 = f1.p2 ∧
      (judgeStep f1 r).1.status = f1.status ∧ (judgeStep f1 r).1.tick = f1.tick := by
  unfold judgeStep
  split_ifs <;> exact ⟨rfl, rfl, rfl, rfl⟩

theorem judgeMatch_fields (f2 : Fight) (r : TickResult) :
    (judgeMatch f2 r).1.p1 = f2.p1 ∧ (judgeMatch f2 r).1.p2 = f2.p2 ∧
      (judgeMatch f2 r).1.rounds_won = f2.rounds_won ∧ (judgeMatch f2 r).1.tick = f2.tick := by
  unfold judgeMatch
  dsimp only
  split_ifs <;> exact ⟨rfl, rfl, rfl, rfl⟩

theorem judgeRound_players (f : Fight) (r : TickResult) :
    (judgeRound f r).1.p1 = f.p1 ∧ (judgeRound f r).1.p2 = f.p2 := by
  unfold judgeRound
  by_cases h1 : f.p1.hp ≤ 0 ∨ f.p2.hp ≤ 0 ∨ 100 ≤ f.tick
  · rw [if_pos h1]
    have hs := judgeStep_fields { f with status := FightStatus.round_over } r
    have hm := judgeMatch_fields (judgeStep { f with status := FightStatus.round_over } r).1
      (judgeStep { f with status := FightStatus.round_over } r).2
    exact ⟨hm.1.trans hs.1, hm.2.1.trans hs.2.1⟩
  · rw [if_neg h1]
    exact ⟨rfl, rfl⟩

theorem combatPhase_inv (f : Fight) (p1a p2a : ActionSubmission) (g : Rng)
    (hg : ValidRng g) (h1 : inRanges f.p1) (h2 : inRanges f.p2) :
    inRanges (combatPhase f p1a p2a g).1.p1 ∧ inRanges (combatPhase f p1a p2a g).1.p2 := by
  obtain ⟨⟨h1hp0, h1hp⟩, ⟨h1pr0, h1pr99⟩, ⟨h1sp0, h1sp100⟩⟩ := h1
  obtain ⟨⟨h2hp0, h2hp⟩, ⟨h2pr0, h2pr99⟩, ⟨h2sp0, h2sp100⟩⟩ := h2
  unfold combatPhase inRanges hpOk prayerOk specOk
  dsimp only
  have P := prayerPhase_inv f.p1 f.p2 p1a.prayer p2a.prayer
  generalize gp : prayerPhase f.p1 f.p2 p1a.prayer p2a.prayer = st1 at P ⊢
  obtain ⟨P1, P2, P3, P4, P5, P6, P7, P8⟩ := P
  obtain ⟨P4a, P4b⟩ := P4 h1pr99
  obtain ⟨P8a, P8b⟩ := P8 h2pr99
  have F := foodPhase_inv st1.p1 st1.p2 p1a.food p2a.food
  generalize gf : foodPhase st1.p1 st1.p2 p1a.food p2a.food = st2 at F ⊢
  obtain ⟨F1, F2, F3, F4, F5, F6⟩ := F
  have M := movementPhase_inv st2.p1 st2.p2 p1a.movement p2a.movement
  generalize gm : movementPhase st2.p1 st2.p2 p1a.movement p2a.movement = st3 at M ⊢
  obtain ⟨M1, M2, M3, M4, M5, M6⟩ := M
  have S := specialPhase_inv st3.p1 st3.p2 p1a p2a g hg (by omega) (by omega)
    ⟨by omega, by omega⟩ ⟨by omega, by omega⟩ ⟨by omega, by omega⟩ ⟨by omega, by omega⟩
  generalize gs : specialPhase st3.p1 st3.p2 p1a p2a g = st4 at S ⊢
  obtain ⟨S1, ⟨S2a, S2b⟩, ⟨S3a, S3b⟩, S4, ⟨S5a, S5b⟩, ⟨S6a, S6b⟩, Sg⟩ := S
  have A := attackTurn_inv st4.p1 st4.p2 p1a (STAT_PROFILES f.p1.combat_class)
    (STAT_PROFILES f.p2.combat_class) st4.g Sg S1 S4
  generalize ga : attackTurn st4.p1 st4.p2 p1a (STAT_PROFILES f.p1.combat_class)
    (STAT_PROFILES f.p2.combat_class) st4.g = at1 at A ⊢
  obtain ⟨A1, A2, A3, A4, A5, A6, Ag⟩ := A
  have B := attackTurn_inv at1.defender at1.attacker p2a (STAT_PROFILES f.p2.combat_class)
    (STAT_PROFILES f.p1.combat_class) at1.g Ag A4 A1
  generalize gb : attackTurn at1.defender at1.attacker p2a (STAT_PROFILES f.p2.combat_class)
    (STAT_PROFILES f.p1.combat_class) at1.g = at2 at B ⊢
  obtain ⟨B1, B2, B3, B4, B5, B6, Bg⟩ := B
  have E := endOfTickPhase_inv at2.defender at2.attacker B4 B1
    ⟨by omega, by omega⟩ ⟨by omega, by omega⟩
  generalize ge : endOfTickPhase at2.defender at2.attacker = st6 at E ⊢
  obtain ⟨⟨E1a, E1b⟩, ⟨E2a, E2b⟩, E3, ⟨E4a, E4b⟩, ⟨E5a, E5b⟩, E6⟩ := E
  exact ⟨⟨⟨E1a, E1b⟩, ⟨by omega, by omega⟩, ⟨E2a, E2b⟩⟩,
         ⟨⟨E4a, E4b⟩, ⟨by omega, by omega⟩, ⟨E5a, E5b⟩⟩⟩

/-- C1: fight creation and tick resolution preserve the stat ranges: both
players of a fresh `createPlayerState` satisfy hp ∈ [0,99], prayer ∈ [0,99],
spec_bar ∈ [0,100], and whenever `resolveTick` succeeds on a fight whose two
players satisfy those ranges, both players of the returned fight satisfy them
again. -/
theorem resolved_tick_ranges (f : Fight) (g : Rng) (out : Fight × TickResult × Rng)
    (hg : ValidRng g) (h1 : inRanges f.p1) (h2 : inRanges f.p2)
    (hres : resolveTick f g = some out) :
    (inRanges out.1.p1 ∧ inRanges out.1.p2) ∧
      ∀ aid cc, inRanges (createPlayerState aid cc) := by
  constructor
  · rcases hP1 : f.pending_actions.p1 with _ | p1a
    · unfold resolveTick at hres
      rw [hP1] at hres
      dsimp only at hres
      exact Option.noConfusion hres
    rcases hP2 : f.pending_actions.p2 with _ | p2a
    · unfold resolveTick at hres
      rw [hP1, hP2] at hres
      dsimp only at hres
      exact Option.noConfusion hres
    unfold resolveTick at hres
    rw [hP1, hP2] at hres
    dsimp only at hres
    have hco := Option.some.inj hres
    subst hco
    have hc := combatPhase_inv f p1a p2a g hg h1 h2
    have hj := judgeRound_players (combatPhase f p1a p2a g).1 (combatPhase f p1a p2a g).2.1
    constructor
    · show inRanges (judgeRound (combatPhase f p1a p2a g).1 (combatPhase f p1a p2a g).2.1).1.p1
      rw [hj.1]
      exact hc.1
    · show inRanges (judgeRound (combatPhase f p1a p2a g).1 (combatPhase f p1a p2a g).2.1).1.p2
      rw [hj.2]
      exact hc.2
  · intro aid cc
    unfold createPlayerState inRanges hpOk prayerOk specOk
    dsimp only
    omega

theorem resolved_tick_ranges_witness :
    (ValidRng ([] : Rng) ∧ inRanges pacingFight.p1 ∧ inRanges pacingFight.p2) ∧
      ((inRanges (resolveTickCore pacingFight (testSubmission "A") (testSubmission "B") []).1.p1 ∧
        inRanges (resolveTickCore pacingFight (testSubmission "A") (testSubmission "B") []).1.p2) ∧
       inRanges (createPlayerState "w" CombatClass.ranged)) :=
  have h := resolved_tick_ranges pacingFight []
    (resolveTickCore pacingFight (testSubmission "A") (testSubmission "B") [])
    validRng_nil (by decide) (by decide) rfl
  ⟨⟨validRng_nil, by decide, by decide⟩, ⟨h.1, h.2 "w" CombatClass.ranged⟩⟩

theorem judgeStep_rounds (f1 : Fight) (r : TickResult) :
    (f1.p1.hp ≤ 0 ∧ 0 < f1.p2.hp →
        (judgeStep f1 r).1.rounds_won.p2 = f1.rounds_won.p2 + 1 ∧
        (judgeStep f1 r).1.rounds_won.p1 = f1.rounds_won.p1) ∧
    (f1.p2.hp ≤ 0 ∧ 0 < f1.p1.hp →
        (judgeStep f1 r).1.rounds_won.p1 = f1.rounds_won.p1 + 1 ∧
        (judgeStep f1 r).1.rounds_won.p2 = f1.rounds_won.p2) ∧
    (0 < f1.p1.hp ∧ 0 < f1.p2.hp ∧ 100 ≤ f1.tick →
        (f1.p2.hp < f1.p1.hp →
            (judgeStep f1 r).1.rounds_won.p1 = f1.rounds_won.p1 + 1 ∧
            (judgeStep f1 r).1.rounds_won.p2 = f1.rounds_won.p2) ∧
        (f1.p1.hp < f1.p2.hp →
            (judgeStep f1 r).1.rounds_won.p2 = f1.rounds_won.p2 + 1 ∧
            (judgeStep f1 r).1.rounds_won.p1 = f1.rounds_won.p1) ∧
        (f1.p1.hp = f1.p2.hp → (judgeStep f1 r).1.rounds_won = f1.rounds_won)) ∧
    (f1.p1.hp ≤ 0 ∧ f1.p2.hp ≤ 0 ∧ ¬ 100 ≤ f1.tick → (judgeStep f1 r).1 = f1) := by
  unfold judgeStep
  split_ifs <;>
    refine ⟨fun hc => ?_, fun hc => ?_,
      fun hc => ⟨fun ha => ?_, fun hb => ?_, fun he => ?_⟩, fun hd => ?_⟩ <;>
    first
      | rfl
      | exact ⟨rfl, rfl⟩
      | (dsimp only at *; omega)
      | (exfalso; omega)

theorem judgeMatch_spec (f2 : Fight) (r : TickResult) :
    (judgeMatch f2 r).1.rounds_won = f2.rounds_won ∧
    ((2 ≤ f2.rounds_won.p1 ∨ 2 ≤ f2.rounds_won.p2) →
        (judgeMatch f2 r).1.status = FightStatus.fight_over) ∧
    (¬(2 ≤ f2.rounds_won.p1 ∨ 2 ≤ f2.rounds_won.p2) →
        (judgeMatch f2 r).1.status = f2.status) := by
  unfold judgeMatch
  dsimp only
  split_ifs <;> refine ⟨rfl, fun h2 => ?_, fun hn => ?_⟩ <;>
    first | rfl | (exfalso; omega)

theorem judgeRound_pos (f : Fight) (r : TickResult)
    (h : f.p1.hp ≤ 0 ∨ f.p2.hp ≤ 0 ∨ 100 ≤ f.tick) :
    judgeRound f r =
      judgeMatch (judgeStep { f with status := FightStatus.round_over } r).1
        (judgeStep { f with status := FightStatus.round_over } r).2 := by
  unfold judgeRound
  rw [if_pos h]

theorem judgeRound_neg (f : Fight) (r : TickResult)
    (h : ¬(f.p1.hp ≤ 0 ∨ f.p2.hp ≤ 0 ∨ 100 ≤ f.tick)) :
    judgeRound f r = (f, r) := by
  unfold judgeRound
  rw [if_neg h]

theorem judgeRound_tick (f : Fight) (r : TickResult) :
    (judgeRound f r).1.tick = f.tick := by
  by_cases h : f.p1.hp ≤ 0 ∨ f.p2.hp ≤ 0 ∨ 100 ≤ f.tick
  · rw [judgeRound_pos f r h]
    have hs := judgeStep_fields { f with status := FightStatus.round_over } r
    have hm := judgeMatch_fields (judgeStep { f with status := FightStatus.round_over } r).1
      (judgeStep { f with status := FightStatus.round_over } r).2
    exact hm.2.2.2.trans hs.2.2.2
  · rw [judgeRound_neg f r h]

theorem combatPhase_book (f : Fight) (p1a p2a : ActionSubmission) (g : Rng) :
    (combatPhase f p1a p2a g).1.status = f.status ∧
    (combatPhase f p1a p2a g).1.rounds_won = f.rounds_won ∧
    (combatPhase f p1a p2a g).1.tick = f.tick + 1 := by
  unfold combatPhase
  dsimp only
  exact ⟨rfl, rfl, rfl⟩

theorem judgeRound_spec (f : Fight) (r : TickResult)
    (hr1 : f.rounds_won.p1 ≤ 1) (hr2 : f.rounds_won.p2 ≤ 1) :
    ((f.p1.hp ≤ 0 ∨ f.p2.hp ≤ 0 ∨ 100 ≤ f.tick) →
        (judgeRound f r).1.status ≠ FightStatus.in_progress) ∧
    (f.p1.hp ≤ 0 ∧ 0 < f.p2.hp →
        (judgeRound f r).1.rounds_won.p2 = f.rounds_won.p2 + 1 ∧
        (judgeRound f r).1.rounds_won.p1 = f.rounds_won.p1) ∧
    (f.p2.hp ≤ 0 ∧ 0 < f.p1.hp →
        (judgeRound f r).1.rounds_won.p1 = f.rounds_won.p1 + 1 ∧
        (judgeRound f r).1.rounds_won.p2 = f.rounds_won.p2) ∧
    (0 < f.p1.hp ∧ 0 < f.p2.hp ∧ 100 ≤ f.tick →
        (f.p2.hp < f.p1.hp →
            (judgeRound f r).1.rounds_won.p1 = f.rounds_won.p1 + 1 ∧
            (judgeRound f r).1.rounds_won.p2 = f.rounds_won.p2) ∧
        (f.p1.hp < f.p2.hp →
            (judgeRound f r).1.rounds_won.p2 = f.rounds_won.p2 + 1 ∧
            (judgeRound f r).1.rounds_won.p1 = f.rounds_won.p1) ∧
        (f.p1.hp = f.p2.hp → (judgeRound f r).1.rounds_won = f.rounds_won)) ∧
    ((2 ≤ (judgeRound f r).1.rounds_won.p1 ∨ 2 ≤ (judgeRound f r).1.rounds_won.p2) →
        (judgeRound f r).1.status = FightStatus.fight_over) := by
  by_cases hRE : f.p1.hp ≤ 0 ∨ f.p2.hp ≤ 0 ∨ 100 ≤ f.tick
  · rw [judgeRound_pos f r hRE]
    have hSr := judgeStep_rounds { f with status := FightStatus.round_over } r
    have hSf := judgeStep_fields { f with status := FightStatus.round_over } r
    have hM := judgeMatch_spec (judgeStep { f with status := FightStatus.round_over } r).1
      (judgeStep { f with status := FightStatus.round_over } r).2
    dsimp only at hSr hSf
    refine ⟨fun _ => ?_, fun hc => ?_, fun hc => ?_,
      fun hc => ⟨fun ha => ?_, fun hb => ?_, fun he => ?_⟩, fun h2 => ?_⟩
    · by_cases h2r : 2 ≤ (judgeStep { f with status := FightStatus.round_over } r).1.rounds_won.p1 ∨
          2 ≤ (judgeStep { f with status := FightStatus.round_over } r).1.rounds_won.p2
      · rw [hM.2.1 h2r]
        exact fun hx => FightStatus.noConfusion hx
      · rw [hM.2.2 h2r, hSf.2.2.1]
        exact fun hx => FightStatus.noConfusion hx
    · rw [hM.1]
      exact hSr.1 hc
    · rw [hM.1]
      exact hSr.2.1 hc
    · rw [hM.1]
      exact (hSr.2.2.1 hc).1 ha
    · rw [hM.1]
      exact (hSr.2.2.1 hc).2.1 hb
    · rw [hM.1]
      exact (hSr.2.2.1 hc).2.2 he
    · rw [hM.1] at h2
      exact hM.2.1 h2
  · rw [judgeRound_neg f r hRE]
    dsimp only
    exact ⟨fun hc => absurd hc hRE, fun hc => absurd (Or.inl hc.1) hRE,
      fun hc => absurd (Or.inr (Or.inl hc.1)) hRE,
      fun hc => absurd (Or.inr (Or.inr hc.2.2)) hRE,
      fun h2 => absurd h2 (by omega)⟩

/-- C2: after the end-of-tick processing of a resolved tick (input rounds-won
counters at most 1): a KO by either party makes the status leave `in_progress`;
a single survivor's counter is incremented by exactly 1 and the other counter
is unchanged; at the 100-tick cap with no KO the strictly-higher-hp party's
counter is incremented (a tie increments neither); and whenever a counter
reaches 2 the status becomes `fight_over`. -/
theorem round_and_match_judging (f : Fight) (g : Rng) (out : Fight × TickResult × Rng)
    (hres : resolveTick f g = some out)
    (hr1 : f.rounds_won.p1 ≤ 1) (hr2 : f.rounds_won.p2 ≤ 1) :
    ((out.1.p1.hp ≤ 0 ∨ out.1.p2.hp ≤ 0 ∨ 100 ≤ out.1.tick) →
        out.1.status ≠ FightStatus.in_progress) ∧
    (out.1.p1.hp ≤ 0 ∧ 0 < out.1.p2.hp →
        out.1.rounds_won.p2 = f.rounds_won.p2 + 1 ∧
        out.1.rounds_won.p1 = f.rounds_won.p1) ∧
    (out.1.p2.hp ≤ 0 ∧ 0 < out.1.p1.hp →
        out.1.rounds_won.p1 = f.rounds_won.p1 + 1 ∧
        out.1.rounds_won.p2 = f.rounds_won.p2) ∧
    (0 < out.1.p1.hp ∧ 0 < out.1.p2.hp ∧ 100 ≤ out.1.tick →
        (out.1.p2.hp < out.1.p1.hp →
            out.1.rounds_won.p1 = f.rounds_won.p1 + 1 ∧
            out.1.rounds_won.p2 = f.rounds_won.p2) ∧
        (out.1.p1.hp < out.1.p2.hp →
            out.1.rounds_won.p2 = f.rounds_won.p2 + 1 ∧
            out.1.rounds_won.p1 = f.rounds_won.p1) ∧
        (out.1.p1.hp = out.1.p2.hp → out.1.rounds_won = f.rounds_won)) ∧
    ((2 ≤ out.1.rounds_won.p1 ∨ 2 ≤ out.1.rounds_won.p2) →
        out.1.status = FightStatus.fight_over) := by
  rcases hP1 : f.pending_actions.p1 with _ | p1a
  · unfold resolveTick at hres
    rw [hP1] at hres
    dsimp only at hres
    exact Option.noConfusion hres
  rcases hP2 : f.pending_actions.p2 with _ | p2a
  · unfold resolveTick at hres
    rw [hP1, hP2] at hres
    dsimp only at hres
    exact Option.noConfusion hres
  unfold resolveTick at hres
  rw [hP1, hP2] at hres
  dsimp only at hres
  have hco := Option.some.inj hres
  subst hco
  have hb := combatPhase_book f p1a p2a g
  have hjp := judgeRound_players (combatPhase f p1a p2a g).1 (combatPhase f p1a p2a g).2.1
  have hjt := judgeRound_tick (combatPhase f p1a p2a g).1 (combatPhase f p1a p2a g).2.1
  have hjs := judgeRound_spec (combatPhase f p1a p2a g).1 (combatPhase f p1a p2a g).2.1
    (by rw [hb.2.1]; exact hr1) (by rw [hb.2.1]; exact hr2)
  have e1 : (resolveTickCore f p1a p2a g).1.p1 = (combatPhase f p1a p2a g).1.p1 := hjp.1
  have e2 : (resolveTickCore f p1a p2a g).1.p2 = (combatPhase f p1a p2a g).1.p2 := hjp.2
  have e3 : (resolveTickCore f p1a p2a g).1.tick = (combatPhase f p1a p2a g).1.tick := hjt
  have e4 : (resolveTickCore f p1a p2a g).1.status =
      (judgeRound (combatPhase f p1a p2a g).1 (combatPhase f p1a p2a g).2.1).1.status := rfl
  have e5 : (resolveTickCore f p1a p2a g).1.rounds_won =
      (judgeRound (combatPhase f p1a p2a g).1 (combatPhase f p1a p2a g).2.1).1.rounds_won := rfl
  rw [hb.2.1] at hjs
  rw [e1, e2, e3, e4, e5]
  exact hjs

def pacingOut : Fight × TickResult × Rng :=
  resolveTickCore pacingFight (testSubmission "A") (testSubmission "B") []

theorem round_and_match_judging_witness :
    (pacingFight.rounds_won.p1 ≤ 1 ∧ pacingFight.rounds_won.p2 ≤ 1) ∧
    (((pacingOut.1.p1.hp ≤ 0 ∨ pacingOut.1.p2.hp ≤ 0 ∨ 100 ≤ pacingOut.1.tick) →
        pacingOut.1.status ≠ FightStatus.in_progress) ∧
     (pacingOut.1.p1.hp ≤ 0 ∧ 0 < pacingOut.1.p2.hp →
        pacingOut.1.rounds_won.p2 = pacingFight.rounds_won.p2 + 1 ∧
        pacingOut.1.rounds_won.p1 = pacingFight.rounds_won.p1) ∧
     (pacingOut.1.p2.hp ≤ 0 ∧ 0 < pacingOut.1.p1.hp →
        pacingOut.1.rounds_won.p1 = pacingFight.rounds_won.p1 + 1 ∧
        pacingOut.1.rounds_won.p2 = pacingFight.rounds_won.p2) ∧
     (0 < pacingOut.1.p1.hp ∧ 0 < pacingOut.1.p2.hp ∧ 100 ≤ pacingOut.1.tick →
        (pacingOut.1.p2.hp < pacingOut.1.p1.hp →
            pacingOut.1.rounds_won.p1 = pacingFight.rounds_won.p1 + 1 ∧
            pacingOut.1.rounds_won.p2 = pacingFight.rounds_won.p2) ∧
        (pacingOut.1.p1.hp < pacingOut.1.p2.hp →
            pacingOut.1.rounds_won.p2 = pacingFight.rounds_won.p2 + 1 ∧
            pacingOut.1.rounds_won.p1 = pacingFight.rounds_won.p1) ∧
        (pacingOut.1.p1.hp = pacingOut.1.p2.hp →
            pacingOut.1.rounds_won = pacingFight.rounds_won)) ∧
     ((2 ≤ pacingOut.1.rounds_won.p1 ∨ 2 ≤ pacingOut.1.rounds_won.p2) →
        pacingOut.1.status = FightStatus.fight_over)) :=
  ⟨⟨by decide, by decide⟩,
   round_and_match_judging pacingFight [] pacingOut rfl (by decide) (by decide)⟩

/-- C10 (implicit): a double KO before the tick cap still ends the round (the
status leaves `in_progress`) but neither rounds-won counter changes, so the
round is drawn. -/
theorem double_ko_drawn_round (f : Fight) (g : Rng) (out : Fight × TickResult × Rng)
    (hres : resolveTick f g = some out)
    (hko1 : out.1.p1.hp = 0) (hko2 : out.1.p2.hp = 0) (htick : out.1.tick < 100) :
    out.1.status ≠ FightStatus.in_progress ∧ out.1.rounds_won = f.rounds_won := by
  rcases hP1 : f.pending_actions.p1 with _ | p1a
  · unfold resolveTick at hres
    rw [hP1] at hres
    dsimp only at hres
    exact Option.noConfusion hres
  rcases hP2 : f.pending_actions.p2 with _ | p2a
  · unfold resolveTick at hres
    rw [hP1, hP2] at hres
    dsimp only at hres
    exact Option.noConfusion hres
  unfold resolveTick at hres
  rw [hP1, hP2] at hres
  dsimp only at hres
  have hco := Option.some.inj hres
  subst hco
  have hb := combatPhase_book f p1a p2a g
  have hjp := judgeRound_players (combatPhase f p1a p2a g).1 (combatPhase f p1a p2a g).2.1
  have hjt := judgeRound_tick (combatPhase f p1a p2a g).1 (combatPhase f p1a p2a g).2.1
  have e1 : (resolveTickCore f p1a p2a g).1.p1 = (combatPhase f p1a p2a g).1.p1 := hjp.1
  have e2 : (resolveTickCore f p1a p2a g).1.p2 = (combatPhase f p1a p2a g).1.p2 := hjp.2
  have e3 : (resolveTickCore f p1a p2a g).1.tick = (combatPhase f p1a p2a g).1.tick := hjt
  rw [e1] at hko1
  rw [e2] at hko2
  rw [e3] at htick
  have hEq := judgeRound_pos (combatPhase f p1a p2a g).1 (combatPhase f p1a p2a g).2.1
    (Or.inl (le_of_eq hko1))
  have hSr := judgeStep_rounds
    { (combatPhase f p1a p2a g).1 with status := FightStatus.round_over }
    (combatPhase f p1a p2a g).2.1
  have hSf := judgeStep_fields
    { (combatPhase f p1a p2a g).1 with status := FightStatus.round_over }
    (combatPhase f p1a p2a g).2.1
  have hM := judgeMatch_spec
    (judgeStep { (combatPhase f p1a p2a g).1 with status := FightStatus.round_over }
      (combatPhase f p1a p2a g).2.1).1
    (judgeStep { (combatPhase f p1a p2a g).1 with status := FightStatus.round_over }
      (combatPhase f p1a p2a g).2.1).2
  dsimp only at hSr hSf
  have hstep := hSr.2.2.2 ⟨by omega, by omega, by omega⟩
  constructor
  · show (judgeRound (combatPhase f p1a p2a g).1 (combatPhase f p1a p2a g).2.1).1.status ≠
      FightStatus.in_progress
    rw [hEq]
    by_cases h2r : 2 ≤ (judgeStep
          { (combatPhase f p1a p2a g).1 with status := FightStatus.round_over }
          (combatPhase f p1a p2a g).2.1).1.rounds_won.p1 ∨
        2 ≤ (judgeStep
          { (combatPhase f p1a p2a g).1 with status := FightStatus.round_over }
          (combatPhase f p1a p2a g).2.1).1.rounds_won.p2
    · rw [hM.2.1 h2r]
      exact fun hx => FightStatus.noConfusion hx
    · rw [hM.2.2 h2r, hSf.2.2.1]
      exact fun hx => FightStatus.noConfusion hx
  · show (judgeRound (combatPhase f p1a p2a g).1 (combatPhase f p1a p2a g).2.1).1.rounds_won =
      f.rounds_won
    rw [hEq, hM.1, hstep]
    dsimp only
    exact hb.2.1

def dkoFight : Fight :=
  mkFight { createPlayerState "A" CombatClass.melee with hp := 3, poisoned := true }
    { createPlayerState "B" CombatClass.melee with hp := 2, poisoned := true }
    (some (testSubmission "A")) (some (testSubmission "B"))

def dkoOut : Fight × TickResult × Rng :=
  resolveTickCore dkoFight (testSubmission "A") (testSubmission "B") []

theorem double_ko_drawn_round_witness :
    (dkoOut.1.p1.hp = 0 ∧ dkoOut.1.p2.hp = 0 ∧ dkoOut.1.tick < 100) ∧
      (dkoOut.1.status ≠ FightStatus.in_progress ∧
       dkoOut.1.rounds_won = dkoFight.rounds_won) :=
  ⟨⟨by decide, by decide, by decide⟩,
   double_ko_drawn_round dkoFight [] dkoOut rfl (by decide) (by decide) (by decide)⟩
